import Mathlib

/-
Verification of the alchemy resource-handler layer.

The repository declares cloud resources via handler functions of the shape
`(Context, Props) -> Output | destroyed`, dispatching on `this.phase`
(`create | update | delete`) and the prior output `this.output`.  Each
handler is embedded below as a pure Lean function from the phase, the
optional prior output, the declared props and an environment describing
the provider responses, to a triple (or quadruple, when provider state is
threaded) of: the handler result, the ordered list of HTTP requests the
handler issued, and the list of error/warn log lines it emitted
(`console.log` informational lines are not error logs and are not
tracked).  JSON parsing of a response body is represented by the
environment directly carrying the parsed, typed payload.

A JavaScript property access on `undefined` (e.g. `this.output.id` when
no prior output exists) raises a TypeError at runtime; such accesses are
embedded as an `error` result carrying a TypeError message.
-/

namespace Alchemy

/-- Lifecycle phase of a single apply, as carried by `this.phase`. -/
inductive Phase where
  | create
  | update
  | delete
deriving DecidableEq

/-- A fetch `Response` as observed by the handlers: every API client in
the repository (`VercelApi`, `SentryApi`, `UpstashApi`) returns the raw
`Response` object from `fetch`; the handlers read `.ok`, `.status` and
`.statusText`. -/
structure Resp where
  status : Nat
  statusText : String
deriving DecidableEq

/-- `Response.ok` is true exactly when the status is in [200, 300). -/
def Resp.ok (r : Resp) : Bool :=
  decide (200 ≤ r.status ∧ r.status < 300)

/-- Result of one handler invocation: a constructed output (`this({...})` /
`this.create({...})`), the destroyed marker (`this.destroy()`), or a
thrown error that propagates to the caller. -/
inductive HResult (α : Type) where
  | ok (out : α)
  | destroyed
  | error (msg : String)
deriving DecidableEq

/-- The Secret wrapper (`src/secret.ts`, referenced by the providers):
wraps a string; the underlying value is read via `.unencrypted`. -/
structure Secret where
  unencrypted : String
deriving DecidableEq

/-- `alchemy.secret(s)` wraps a plain string as a Secret. -/
def alchemySecret (s : String) : Secret := ⟨s⟩

/-- A value stored in an output or request field: either a plain string
or a Secret wrapper.  This distinguishes the two UpstashRedis variants,
one of which wraps provider-returned credentials and one of which does
not. -/
inductive FieldVal where
  | plain (s : String)
  | secretVal (s : Secret)
deriving DecidableEq

/-- Modelled from the spec: serialization of a persisted/logged field
renders a Secret as a redaction placeholder that is independent of the
wrapped plaintext, while a plain string field is rendered verbatim
(spec section 4.4, "Secret Handling"; `src/secret.ts` is not in the
snapshot). -/
def serializeField : FieldVal → String
  | .plain s => s
  | .secretVal _ => "SECRET-REDACTED"

/-- HTTP method of a request issued by a handler. -/
inductive Method where
  | get
  | post
  | put
  | patch
  | del
deriving DecidableEq

/-- A request issued through one of the minimal API clients; the body of
a create/update request is always the declared props for the handlers
that use this shape, so only method and path are recorded. -/
structure StdReq where
  method : Method
  path : String
deriving DecidableEq

/-- Provider responses for one invocation of a standard-shaped handler:
the response to the delete call (or a rejected fetch promise, modelled
by `deleteThrow`), and the response plus parsed JSON payload of the
single create-or-update call. -/
structure StdEnv (Data : Type) where
  deleteResp : Resp
  deleteThrow : Option String
  opResp : Resp
  opData : Data

/-- Per-resource parameters of the standard handler shape shared verbatim
by sentry `Team` (team.ts:90-150), sentry `Project` (part_003:234-324),
sentry `ClientKey` (client-key.ts:131-198), vercel `ProjectEnv`
(part_001:102-177), vercel `ProjectDomain` (project-domain.ts:108-198)
and the older `UpstashRedis` (project.ts:1079-1160):
on delete: guarded by this.output?.id, issue DELETE, log on a non-2xx
non-404 status, log on a thrown fetch error, always return this.destroy;
otherwise: issue the update call when phase is update and this.output?.id
is truthy, else the create call, throw an API error on a non-2xx status
(logging it on the way out), and construct the output on success. -/
structure StdSpec (Props Out Data : Type) where
  noun : String
  outId : Out → String
  deletePath : Props → Out → String
  updMethod : Method
  updatePath : Props → Out → String
  createPath : Props → String
  build : Props → Data → Out

/-- The standard handler shape (see `StdSpec`).  The `this.output?.id`
guards follow JavaScript truthiness: an empty-string id is falsy. -/
def stdHandler {Props Out Data : Type} (sp : StdSpec Props Out Data)
    (env : StdEnv Data) (phase : Phase) (output : Option Out)
    (props : Props) : HResult Out × List StdReq × List String :=
  match phase with
  | .delete =>
    match output with
    | none => (.destroyed, [], [])
    | some out =>
      if sp.outId out = "" then (.destroyed, [], [])
      else
        match env.deleteThrow with
        | some e =>
          (.destroyed, [⟨.del, sp.deletePath props out⟩],
            ["Error deleting " ++ sp.noun ++ ": " ++ e])
        | none =>
          if env.deleteResp.ok = false ∧ env.deleteResp.status ≠ 404 then
            (.destroyed, [⟨.del, sp.deletePath props out⟩],
              ["Error deleting " ++ sp.noun ++ ": "
                ++ env.deleteResp.statusText])
          else (.destroyed, [⟨.del, sp.deletePath props out⟩], [])
  | _ =>
    let req : StdReq :=
      match output with
      | some out =>
        if phase = .update ∧ sp.outId out ≠ "" then
          ⟨sp.updMethod, sp.updatePath props out⟩
        else ⟨.post, sp.createPath props⟩
      | none => ⟨.post, sp.createPath props⟩
    if env.opResp.ok = true then
      (.ok (sp.build props env.opData), [req], [])
    else
      (.error ("API error: " ++ env.opResp.statusText), [req],
        ["Error creating/updating " ++ sp.noun ++ ": API error: "
          ++ env.opResp.statusText])

/-- JavaScript `a || b` on an optional slug falling back to the id, as in
`this.output.slug || this.output.id` (team.ts:103, part_003:245): an
absent or empty-string slug falls through to the id. -/
def slugOrId (slug : Option String) (id : String) : String :=
  match slug with
  | some s => if s = "" then id else s
  | none => id

/-- `TeamProps` (team.ts:8-18). -/
structure TeamProps where
  name : String
  slug : Option String
deriving DecidableEq

/-- The `Team` output (team.ts:23-78): the declared props spread together
with provider-assigned fields.  Of the provider-assigned fields only `id`
is ever read by a handler (delete-path construction); the remaining ones
(dateCreated, isMember, ...) influence no handler branch and no claim,
and are not tracked. -/
structure TeamOut where
  name : String
  slug : Option String
  id : String
deriving DecidableEq

/-- Parsed response payload for Team create/update (team.ts:130). -/
structure TeamData where
  id : String
deriving DecidableEq

/-- sentry `Team` handler parameters (team.ts:90-150); `orgId` is
`api.organizationId`. -/
def teamSpec (orgId : String) : StdSpec TeamProps TeamOut TeamData where
  noun := "team"
  outId := TeamOut.id
  deletePath := fun _ o => "/teams/" ++ orgId ++ "/" ++ slugOrId o.slug o.id
  updMethod := .put
  updatePath := fun _ o => "/teams/" ++ orgId ++ "/" ++ slugOrId o.slug o.id
  createPath := fun _ => "/teams/" ++ orgId
  build := fun p d => ⟨p.name, p.slug, d.id⟩

/-- The sentry `Team` resource handler (team.ts:90-150). -/
def teamHandler (orgId : String) (env : StdEnv TeamData) (phase : Phase)
    (output : Option TeamOut) (props : TeamProps) :
    HResult TeamOut × List StdReq × List String :=
  stdHandler (teamSpec orgId) env phase output props

/-- `ProjectProps` of the sentry Project (part_003:6-32). -/
structure SentryProjectProps where
  name : String
  slug : Option String
  platform : Option String
  defaultRules : Option Bool
  team : String
deriving DecidableEq

/-- A `{id, name, slug}` team reference inside a sentry Project response
(part_003:45-51). -/
structure TeamRef where
  id : String
  name : String
  slug : String
deriving DecidableEq

/-- The sentry `Project` output (part_003:37-212): declared props spread
with provider-assigned fields; only `id` and `slug` are read by a
handler (delete/update path construction), the declared `team` slug is
overridden by the provider-returned team object, and the many remaining
provider fields (isBookmarked, features, ...) influence no handler
branch and no claim. -/
structure SentryProjectOut where
  name : String
  slug : Option String
  platform : Option String
  defaultRules : Option Bool
  id : String
  team : TeamRef
deriving DecidableEq

/-- Parsed response payload for sentry Project create/update
(part_003:301-305). -/
structure SentryProjectData where
  id : String
  team : TeamRef
deriving DecidableEq

/-- sentry `Project` handler parameters (part_003:234-324). -/
def sentryProjectSpec (orgId : String) :
    StdSpec SentryProjectProps SentryProjectOut SentryProjectData where
  noun := "project"
  outId := SentryProjectOut.id
  deletePath := fun _ o => "/projects/" ++ orgId ++ "/" ++ slugOrId o.slug o.id
  updMethod := .put
  updatePath := fun _ o => "/projects/" ++ orgId ++ "/" ++ slugOrId o.slug o.id
  createPath := fun p => "/teams/" ++ orgId ++ "/" ++ p.team ++ "/projects"
  build := fun p d => ⟨p.name, p.slug, p.platform, p.defaultRules, d.id, d.team⟩

/-- The sentry `Project` resource handler (part_003:234-324). -/
def sentryProjectHandler (orgId : String) (env : StdEnv SentryProjectData)
    (phase : Phase) (output : Option SentryProjectOut)
    (props : SentryProjectProps) :
    HResult SentryProjectOut × List StdReq × List String :=
  stdHandler (sentryProjectSpec orgId) env phase output props

/-- Rate limit configuration of a ClientKey (client-key.ts:17-27). -/
structure RateLimit where
  window : Nat
  count : Nat
deriving DecidableEq

/-- `ClientKeyProps` (client-key.ts:8-38). -/
structure ClientKeyProps where
  name : Option String
  rateLimit : Option RateLimit
  useCase : Option String
  project : String
deriving DecidableEq

/-- The sentry `ClientKey` output (client-key.ts:43-116): declared props
spread with provider-assigned fields; only `id` and `projectId` are read
by a handler (delete/update path construction); the remaining provider
fields (label, dsn, ...) influence no handler branch and no claim. -/
structure ClientKeyOut where
  name : Option String
  rateLimit : Option RateLimit
  useCase : Option String
  project : String
  id : String
  projectId : Nat
deriving DecidableEq

/-- Parsed response payload for ClientKey create/update
(client-key.ts:174-177). -/
structure ClientKeyData where
  id : String
  projectId : Nat
deriving DecidableEq

/-- sentry `ClientKey` handler parameters (client-key.ts:131-198). -/
def clientKeySpec (orgId : String) :
    StdSpec ClientKeyProps ClientKeyOut ClientKeyData where
  noun := "client key"
  outId := ClientKeyOut.id
  deletePath := fun _ o =>
    "/projects/" ++ orgId ++ "/" ++ toString o.projectId ++ "/keys/" ++ o.id
  updMethod := .put
  updatePath := fun _ o =>
    "/projects/" ++ orgId ++ "/" ++ toString o.projectId ++ "/keys/" ++ o.id
  createPath := fun p => "/projects/" ++ orgId ++ "/" ++ p.project ++ "/keys"
  build := fun p d =>
    ⟨p.name, p.rateLimit, p.useCase, p.project, d.id, d.projectId⟩

/-- The sentry `ClientKey` resource handler (client-key.ts:131-198). -/
def clientKeyHandler (orgId : String) (env : StdEnv ClientKeyData)
    (phase : Phase) (output : Option ClientKeyOut) (props : ClientKeyProps) :
    HResult ClientKeyOut × List StdReq × List String :=
  stdHandler (clientKeySpec orgId) env phase output props

/-- `ProjectEnvProps` (part_001:9-44; the `accessToken` prop only feeds
the API client constructor and the TS `type` field is named `varType`
here). -/
structure ProjectEnvProps where
  projectId : String
  key : String
  value : String
  varType : String
  target : String
  gitBranch : Option String
deriving DecidableEq

/-- The vercel `ProjectEnv` output (part_001:49-66). -/
structure ProjectEnvOut where
  projectId : String
  key : String
  value : String
  varType : String
  target : String
  gitBranch : Option String
  id : String
  createdAt : Nat
  updatedAt : Nat
deriving DecidableEq

/-- Parsed response payload for ProjectEnv create/update
(part_001:158-162). -/
structure ProjectEnvData where
  id : String
  createdAt : Nat
  updatedAt : Nat
deriving DecidableEq

/-- vercel `ProjectEnv` handler parameters (part_001:102-177; the
variant at project-env.ts:96-173 has the same handler logic). -/
def projectEnvSpec : StdSpec ProjectEnvProps ProjectEnvOut ProjectEnvData where
  noun := "environment variable"
  outId := ProjectEnvOut.id
  deletePath := fun p o => "/projects/" ++ p.projectId ++ "/env/" ++ o.id
  updMethod := .patch
  updatePath := fun p o => "/projects/" ++ p.projectId ++ "/env/" ++ o.id
  createPath := fun p => "/projects/" ++ p.projectId ++ "/env"
  build := fun p d =>
    ⟨p.projectId, p.key, p.value, p.varType, p.target, p.gitBranch,
      d.id, d.createdAt, d.updatedAt⟩

/-- The vercel `ProjectEnv` resource handler (part_001:102-177). -/
def projectEnvHandler (env : StdEnv ProjectEnvData) (phase : Phase)
    (output : Option ProjectEnvOut) (props : ProjectEnvProps) :
    HResult ProjectEnvOut × List StdReq × List String :=
  stdHandler projectEnvSpec env phase output props

/-- `ProjectDomainProps` (project-domain.ts:9-34). -/
structure ProjectDomainProps where
  name : String
  projectId : String
  gitBranch : Option String
  redirect : Option String
  redirectStatusCode : Option Nat
deriving DecidableEq

/-- The vercel `ProjectDomain` output (project-domain.ts:39-86; the
`verification` list influences no handler branch and no claim and is
not tracked). -/
structure ProjectDomainOut where
  name : String
  projectId : String
  gitBranch : Option String
  redirect : Option String
  redirectStatusCode : Option Nat
  id : String
  createdAt : Nat
  updatedAt : Nat
  verified : Bool
deriving DecidableEq

/-- Parsed response payload for ProjectDomain create/update
(project-domain.ts:170-181). -/
structure ProjectDomainData where
  id : String
  createdAt : Nat
  updatedAt : Nat
  verified : Bool
deriving DecidableEq

/-- vercel `ProjectDomain` handler parameters (project-domain.ts:108-198).
The delete and update paths address the domain by `this.output.name`. -/
def projectDomainSpec :
    StdSpec ProjectDomainProps ProjectDomainOut ProjectDomainData where
  noun := "domain"
  outId := ProjectDomainOut.id
  deletePath := fun p o => "/projects/" ++ p.projectId ++ "/domains/" ++ o.name
  updMethod := .patch
  updatePath := fun p o => "/projects/" ++ p.projectId ++ "/domains/" ++ o.name
  createPath := fun p => "/projects/" ++ p.projectId ++ "/domains"
  build := fun p d =>
    ⟨p.name, p.projectId, p.gitBranch, p.redirect, p.redirectStatusCode,
      d.id, d.createdAt, d.updatedAt, d.verified⟩

/-- The vercel `ProjectDomain` resource handler (project-domain.ts:108-198). -/
def projectDomainHandler (env : StdEnv ProjectDomainData) (phase : Phase)
    (output : Option ProjectDomainOut) (props : ProjectDomainProps) :
    HResult ProjectDomainOut × List StdReq × List String :=
  stdHandler projectDomainSpec env phase output props

/-- `UpstashDatabaseResponse` (project.ts:553-569 and project.ts:948-963):
the parsed body of an Upstash database create/get response. -/
structure UpstashDb where
  database_id : String
  database_name : String
  database_type : String
  region : String
  port : Nat
  creation_time : Nat
  state : String
  password : String
  user_email : String
  endpoint : String
  tls : Bool
  rest_token : String
  read_only_rest_token : String
  eviction : Bool
deriving DecidableEq

/-- `UpstashRedisProps` of the older variant (project.ts:841-861), which
has no `eviction` prop. -/
structure UpstashBProps where
  name : String
  primaryRegion : String
  readRegions : Option (List String)
  budget : Option Nat
deriving DecidableEq

/-- The older `UpstashRedis` output (project.ts:866-928 together with the
construction at project.ts:1136-1153): `password`, `restToken` and
`readOnlyRestToken` are plain strings copied straight from the provider
response.  They are embedded as `FieldVal` to record whether the handler
wrapped them. -/
structure UpstashBOut where
  id : String
  name : String
  databaseType : String
  region : String
  port : Nat
  createdAt : Nat
  state : String
  password : FieldVal
  userEmail : String
  endpoint : String
  tls : Bool
  restToken : FieldVal
  readOnlyRestToken : FieldVal
  primaryRegion : String
  readRegions : Option (List String)
  budget : Option Nat
deriving DecidableEq

/-- Older `UpstashRedis` handler parameters (project.ts:1079-1160): both
the update call (to `/redis/database/{id}`) and the create call (to
`/redis/database`) are POSTs; the output construction
(project.ts:1136-1153) stores the three credentials unwrapped. -/
def upstashBSpec : StdSpec UpstashBProps UpstashBOut UpstashDb where
  noun := "database"
  outId := UpstashBOut.id
  deletePath := fun _ o => "/redis/database/" ++ o.id
  updMethod := .post
  updatePath := fun _ o => "/redis/database/" ++ o.id
  createPath := fun _ => "/redis/database"
  build := fun p d =>
    ⟨d.database_id, d.database_name, d.database_type, d.region, d.port,
      d.creation_time, d.state, .plain d.password, d.user_email, d.endpoint,
      d.tls, .plain d.rest_token, .plain d.read_only_rest_token,
      p.primaryRegion, p.readRegions, p.budget⟩

/-- The older `UpstashRedis` resource handler (project.ts:1079-1160). -/
def upstashBHandler (env : StdEnv UpstashDb) (phase : Phase)
    (output : Option UpstashBOut) (props : UpstashBProps) :
    HResult UpstashBOut × List StdReq × List String :=
  stdHandler upstashBSpec env phase output props

/-- An environment-variable entry of `ProjectProps.environmentVariables`
(project.ts:43-73); the TS `type` field is named `varType` here and the
union value is a `FieldVal` (plain string for `system`/`plain`, Secret
for `encrypted`/`sensitive`). -/
structure ProjEnvVar where
  key : String
  target : List String
  gitBranch : Option String
  varType : String
  value : FieldVal
deriving DecidableEq

/-- `ProjectProps.gitRepository` (project.ts:130-140); the TS `type`
field is named `provider` here. -/
structure GitRepository where
  provider : String
  repo : String
deriving DecidableEq

/-- `ProjectProps.oidcTokenConfig` (project.ts:175-185). -/
structure OidcTokenConfig where
  enabled : Bool
  issuerMode : String
deriving DecidableEq

/-- `ProjectProps.resourceConfig` (project.ts:195-230). -/
structure ResourceConfig where
  fluid : Option Bool
  functionDefaultRegions : Option (List String)
  functionDefaultTimeout : Option Nat
  functionDefaultMemoryType : Option String
  functionZeroConfigFailover : Option Bool
  elasticConcurrencyEnabled : Option Bool
  buildMachineType : Option String
deriving DecidableEq

/-- `ProjectProps` of the vercel Project (project.ts:9-231). -/
structure ProjectProps where
  name : String
  enablePreviewFeedback : Option Bool
  enableProductionFeedback : Option Bool
  buildCommand : Option String
  commandForIgnoringBuildStep : Option String
  devCommand : Option String
  environmentVariables : Option (List ProjEnvVar)
  framework : Option String
  gitRepository : Option GitRepository
  installCommand : Option String
  outputDirectory : Option String
  publicSource : Option Bool
  rootDirectory : Option String
  serverlessFunctionRegion : Option String
  serverlessFunctionZeroConfigFailover : Option Bool
  oidcTokenConfig : Option OidcTokenConfig
  enableAffectedProjectsDeployments : Option Bool
  resourceConfig : Option ResourceConfig
deriving DecidableEq

/-- The body of the update PATCH request: the result of
`const { name, environmentVariables, ...rest } = props` (project.ts:319),
i.e. every `ProjectProps` field except `name` and
`environmentVariables`. -/
structure ProjectPatchBody where
  enablePreviewFeedback : Option Bool
  enableProductionFeedback : Option Bool
  buildCommand : Option String
  commandForIgnoringBuildStep : Option String
  devCommand : Option String
  framework : Option String
  gitRepository : Option GitRepository
  installCommand : Option String
  outputDirectory : Option String
  publicSource : Option Bool
  rootDirectory : Option String
  serverlessFunctionRegion : Option String
  serverlessFunctionZeroConfigFailover : Option Bool
  oidcTokenConfig : Option OidcTokenConfig
  enableAffectedProjectsDeployments : Option Bool
  resourceConfig : Option ResourceConfig
deriving DecidableEq

/-- The `...rest` projection of project.ts:319. -/
def projectRest (p : ProjectProps) : ProjectPatchBody :=
  ⟨p.enablePreviewFeedback, p.enableProductionFeedback, p.buildCommand,
    p.commandForIgnoringBuildStep, p.devCommand, p.framework,
    p.gitRepository, p.installCommand, p.outputDirectory, p.publicSource,
    p.rootDirectory, p.serverlessFunctionRegion,
    p.serverlessFunctionZeroConfigFailover, p.oidcTokenConfig,
    p.enableAffectedProjectsDeployments, p.resourceConfig⟩

/-- The JSON keys present in a `ProjectPatchBody`, i.e. the keys of the
object sent as the PATCH payload (project.ts:319-321). -/
def projectPatchKeys : List String :=
  ["enablePreviewFeedback", "enableProductionFeedback", "buildCommand",
   "commandForIgnoringBuildStep", "devCommand", "framework",
   "gitRepository", "installCommand", "outputDirectory", "publicSource",
   "rootDirectory", "serverlessFunctionRegion",
   "serverlessFunctionZeroConfigFailover", "oidcTokenConfig",
   "enableAffectedProjectsDeployments", "resourceConfig"]

/-- The latest-deployment member of a project response
(project.ts:260-270). -/
structure Deployment where
  id : String
  url : String
deriving DecidableEq

/-- Parsed response payload of a vercel Project PATCH/POST
(project.ts:322-331 and 395-404). -/
structure VercelProjectData where
  id : String
  accountId : String
  createdAt : Nat
  updatedAt : Nat
  latestDeployment : Option Deployment
deriving DecidableEq

/-- The vercel `Project` output (project.ts:236-271): the provider
fields plus the declared props, kept as a nested `props` component (the
source spreads `...props` into the same object). -/
structure ProjectOut where
  id : String
  accountId : String
  createdAt : Nat
  updatedAt : Nat
  latestDeployment : Option Deployment
  props : ProjectProps
deriving DecidableEq

/-- Output construction of project.ts:371-378 / 406-414. -/
def buildProjectOut (d : VercelProjectData) (p : ProjectProps) : ProjectOut :=
  ⟨d.id, d.accountId, d.createdAt, d.updatedAt, d.latestDeployment, p⟩

/-- A remote environment variable as returned by the env list endpoint
(project.ts:351-355). -/
structure RemoteEnv where
  id : String
  key : String
deriving DecidableEq

/-- The value transformation of project.ts:341-347 (update upsert body)
and project.ts:387-392 (create-phase in-place mutation): an `encrypted`
variable has its Secret replaced by the unwrapped plaintext; all other
variables (including `sensitive` ones) are passed through unchanged. -/
def unwrapForUpsert (ev : ProjEnvVar) : ProjEnvVar :=
  if ev.varType = "encrypted" then
    match ev.value with
    | .secretVal s => { ev with value := .plain s.unencrypted }
    | .plain _ => ev
  else ev

/-- A request issued by the vercel `Project` handler. -/
inductive VReq where
  | deleteProject (path : String)
  | patchProject (path : String) (body : ProjectPatchBody)
  | postProject (path : String) (body : ProjectProps)
  | postEnvUpsert (path : String) (body : List ProjEnvVar)
  | getEnvs (path : String)
  | deleteEnv (path : String)
deriving DecidableEq

/-- Provider responses for one vercel `Project` invocation.  The
`createVercelApi` factory itself is not in the snapshot; it is embedded
as returning the raw fetch `Response`, exactly like every API client
that is in the snapshot (`VercelApi`, vercel/api.ts:53-83: "Returns Raw
Response object from fetch").  The handler never reads the status of the
PATCH/POST response (`opResp` is recorded to document this), and the env
upsert, env list and env delete responses are likewise never
status-checked. -/
structure VercelProjectRemote where
  deleteResp : Resp
  deleteThrow : Option String
  opResp : Resp
  opData : VercelProjectData
  remoteEnvs : List RemoteEnv

/-- The vercel `Project` resource handler (project.ts:273-418).
Delete (project.ts:281-305): guarded by `this.output?.id`, failures are
logged only.  Update (project.ts:307-379): throws "Cannot update project
without ID" when no prior output id exists; otherwise PATCHes the
`rest` body, upserts the declared environment variables, lists the
remote ones and deletes those whose key is not declared, and builds the
output from the parsed PATCH payload spread with the declared props.
Create (project.ts:381-415): unwraps `encrypted` values in place, POSTs
the (mutated) props and builds the output from the parsed payload spread
with the mutated props. -/
def vercelProject (env : VercelProjectRemote) (phase : Phase)
    (output : Option ProjectOut) (props : ProjectProps) :
    HResult ProjectOut × List VReq × List String :=
  match phase with
  | .delete =>
    match output with
    | none => (.destroyed, [], [])
    | some out =>
      if out.id = "" then (.destroyed, [], [])
      else
        match env.deleteThrow with
        | some e =>
          (.destroyed, [.deleteProject ("/projects/" ++ out.id)],
            ["Error deleting project: " ++ e])
        | none =>
          if env.deleteResp.ok = false ∧ env.deleteResp.status ≠ 404 then
            (.destroyed, [.deleteProject ("/projects/" ++ out.id)],
              ["Error deleting project: " ++ env.deleteResp.statusText])
          else
            (.destroyed, [.deleteProject ("/projects/" ++ out.id)], [])
  | .update =>
    match output with
    | none => (.error "Cannot update project without ID", [], [])
    | some out =>
      if out.id = "" then (.error "Cannot update project without ID", [], [])
      else
        let patchReq :=
          VReq.patchProject ("/projects/" ++ out.id) (projectRest props)
        let envReqs :=
          match props.environmentVariables with
          | none => []
          | some evs =>
            [VReq.postEnvUpsert ("/projects/" ++ out.id ++ "/env?upsert=true")
                (evs.map unwrapForUpsert),
             VReq.getEnvs ("/projects/" ++ out.id ++ "/env")]
            ++ (env.remoteEnvs.filter
                  (fun pe => !(evs.any (fun ev => ev.key == pe.key)))).map
                (fun pe =>
                  VReq.deleteEnv ("/projects/" ++ out.id ++ "/env/" ++ pe.id))
        (.ok (buildProjectOut env.opData props), patchReq :: envReqs, [])
  | .create =>
    let mutatedProps :=
      { props with
        environmentVariables :=
          props.environmentVariables.map (List.map unwrapForUpsert) }
    (.ok (buildProjectOut env.opData mutatedProps),
      [VReq.postProject "/projects" mutatedProps], [])

/-- `RouteProps` of the cloudflare Route (sentry/api.ts, second document,
lines 14-33 of it); `script` is the resolved script name (`props.script`
when a string, `props.script.name` when a Worker resource —
"const scriptName = ..." in the handler). -/
structure RouteProps where
  pattern : String
  script : String
  zoneId : String
deriving DecidableEq

/-- The cloudflare `Route` output. -/
structure RouteOut where
  id : String
  pattern : String
  script : String
  zoneId : String
deriving DecidableEq

/-- The `result` member of a `CloudflareRouteResponse`. -/
structure RouteData where
  id : String
  pattern : String
  script : String
deriving DecidableEq

/-- Provider responses for one cloudflare `Route` invocation. -/
structure RouteEnv where
  deleteResp : Resp
  opResp : Resp
  opData : RouteData

/-- The cloudflare `Route` resource handler (the `Route` resource
concatenated into sentry/api.ts, lines 194-250 of that document, with
its helpers `createRoute`/`updateRoute`/`deleteRoute`).  Delete is
guarded by `this.output?.id` and `deleteRoute` throws a
`CloudflareApiError` on a non-2xx, non-404 response (there is no
try/catch around it, so the error propagates).  Create/update call
`handleApiError` on a non-2xx response; `handleApiError`
(cloudflare/api-error.ts) is not in the snapshot and is modelled from
the spec: a non-2xx response during create/update surfaces as a fatal
classified error (spec section 7, ProviderError). -/
def routeHandler (env : RouteEnv) (phase : Phase) (output : Option RouteOut)
    (props : RouteProps) : HResult RouteOut × List StdReq × List String :=
  match phase with
  | .delete =>
    match output with
    | none => (.destroyed, [], [])
    | some out =>
      if out.id = "" then (.destroyed, [], [])
      else
        let path :=
          "/zones/" ++ props.zoneId ++ "/workers/routes/" ++ out.id
        if env.deleteResp.ok = false ∧ env.deleteResp.status ≠ 404 then
          (.error ("Error deleting Route " ++ out.id ++ ": "
              ++ env.deleteResp.statusText),
            [⟨.del, path⟩], [])
        else (.destroyed, [⟨.del, path⟩], [])
  | _ =>
    let req : StdReq :=
      match output with
      | some out =>
        if phase = .update ∧ out.id ≠ "" then
          ⟨.put, "/zones/" ++ props.zoneId ++ "/workers/routes/" ++ out.id⟩
        else ⟨.post, "/zones/" ++ props.zoneId ++ "/workers/routes"⟩
      | none => ⟨.post, "/zones/" ++ props.zoneId ++ "/workers/routes"⟩
    if env.opResp.ok = true then
      (.ok ⟨env.opData.id, env.opData.pattern, env.opData.script,
          props.zoneId⟩,
        [req], [])
    else
      (.error ("Cloudflare API error for Route " ++ props.pattern ++ ": "
          ++ env.opResp.statusText),
        [req], [])

/-- `UpstashRedisProps` of the newer variant (project.ts:441-466), which
adds the `eviction` prop. -/
structure UpstashAProps where
  name : String
  primaryRegion : String
  readRegions : Option (List String)
  budget : Option Nat
  eviction : Option Bool
deriving DecidableEq

/-- The newer `UpstashRedis` output (project.ts:471-533 together with the
construction at project.ts:800-818): `password`, `restToken` and
`readOnlyRestToken` are wrapped with `alchemy.secret`. -/
structure UpstashAOut where
  id : String
  name : String
  databaseType : String
  region : String
  port : Nat
  createdAt : Nat
  state : String
  password : FieldVal
  userEmail : String
  endpoint : String
  tls : Bool
  restToken : FieldVal
  readOnlyRestToken : FieldVal
  primaryRegion : String
  readRegions : Option (List String)
  budget : Option Nat
  eviction : Option Bool
deriving DecidableEq

/-- Output construction of project.ts:800-818 (`this.create({...})`). -/
def buildUpstashAOut (db : UpstashDb) (p : UpstashAProps) : UpstashAOut :=
  ⟨db.database_id, db.database_name, db.database_type, db.region, db.port,
    db.creation_time, db.state, .secretVal (alchemySecret db.password),
    db.user_email, db.endpoint, db.tls,
    .secretVal (alchemySecret db.rest_token),
    .secretVal (alchemySecret db.read_only_rest_token),
    p.primaryRegion, p.readRegions, p.budget, p.eviction⟩

/-- The create body of project.ts:768-775. -/
structure UCreateBody where
  budget : Option Nat
  name : String
  primary_region : String
  read_regions : Option (List String)
  region : String
  tls : Bool
deriving DecidableEq

/-- A request issued by the newer `UpstashRedis` handler. -/
inductive UReq where
  | deleteDb (id : String)
  | rename (id : String) (name : String)
  | updateRegions (id : String) (regions : List String)
  | enableEviction (id : String)
  | disableEviction (id : String)
  | getDb (id : String)
  | createDb (body : UCreateBody)
deriving DecidableEq

/-- An Upstash API response: status, statusText and the parsed database
payload (read by the handler only after the create and get calls). -/
structure UResp where
  status : Nat
  statusText : String
  body : UpstashDb
deriving DecidableEq

/-- `Response.ok` for an Upstash response. -/
def UResp.ok (r : UResp) : Bool :=
  decide (200 ≤ r.status ∧ r.status < 300)

/-- Final stage of the newer `UpstashRedis` update branch
(project.ts:757-764): fetch the updated database info; throw on a
non-2xx response, else fall through to the output construction.
`reqs`/`logs` are the requests and warn lines accumulated by the earlier
stages; the provider is threaded as a state `S` transformed by `step`. -/
def upstashAGet {S : Type} (step : S → UReq → UResp × S) (out : UpstashAOut)
    (props : UpstashAProps) (s : S) (reqs : List UReq) (logs : List String) :
    HResult UpstashAOut × List UReq × List String × S :=
  let p := step s (.getDb out.id)
  let reqs1 := reqs ++ [.getDb out.id]
  if p.1.ok = false then
    (.error ("API error: " ++ p.1.statusText), reqs1, logs, p.2)
  else (.ok (buildUpstashAOut p.1.body props), reqs1, logs, p.2)

/-- Eviction stage of the newer `UpstashRedis` update branch
(project.ts:736-755): when `props.eviction` is defined and differs from
the prior output eviction, POST the enable/disable toggle; a non-2xx
response is only warned about (`console.warn`) and the handler
continues. -/
def upstashAEviction {S : Type} (step : S → UReq → UResp × S)
    (out : UpstashAOut) (props : UpstashAProps) (s : S) (reqs : List UReq) :
    HResult UpstashAOut × List UReq × List String × S :=
  if props.eviction ≠ none ∧ props.eviction ≠ out.eviction then
    let req : UReq :=
      match props.eviction with
      | some true => .enableEviction out.id
      | _ => .disableEviction out.id
    let p := step s req
    let logs :=
      if p.1.ok = false then
        ["API error updating eviction: " ++ p.1.statusText
          ++ ". (Eviction may already be set)"]
      else []
    upstashAGet step out props p.2 (reqs ++ [req]) logs
  else upstashAGet step out props s reqs []

/-- Read-regions stage of the newer `UpstashRedis` update branch
(project.ts:719-734): when the declared read regions differ from the
prior output ones (the source compares `JSON.stringify` images, which on
these values coincides with structural equality), POST the region
update and throw on a non-2xx response. -/
def upstashARegions {S : Type} (step : S → UReq → UResp × S)
    (out : UpstashAOut) (props : UpstashAProps) (s : S) (reqs : List UReq) :
    HResult UpstashAOut × List UReq × List String × S :=
  if props.readRegions ≠ out.readRegions then
    let req : UReq := .updateRegions out.id (props.readRegions.getD [])
    let p := step s req
    if p.1.ok = false then
      (.error ("API error updating regions: " ++ p.1.statusText),
        reqs ++ [req], [], p.2)
    else upstashAEviction step out props p.2 (reqs ++ [req])
  else upstashAEviction step out props s reqs

/-- Rename stage of the newer `UpstashRedis` update branch
(project.ts:707-717): when the declared name differs from the prior
output name, POST the rename and throw on a non-2xx response. -/
def upstashAUpdate {S : Type} (step : S → UReq → UResp × S)
    (out : UpstashAOut) (props : UpstashAProps) (s : S) :
    HResult UpstashAOut × List UReq × List String × S :=
  if props.name ≠ out.name then
    let req : UReq := .rename out.id props.name
    let p := step s req
    if p.1.ok = false then
      (.error ("API error updating name: " ++ p.1.statusText), [req], [], p.2)
    else upstashARegions step out props p.2 [req]
  else upstashARegions step out props s []

/-- Create branch of the newer `UpstashRedis` handler
(project.ts:767-798): POST the create body, throw on a non-2xx
response; when `props.eviction` is defined, POST the eviction toggle and
throw on a non-2xx response; the output is then built from the create
response payload. -/
def upstashACreate {S : Type} (step : S → UReq → UResp × S)
    (props : UpstashAProps) (s : S) :
    HResult UpstashAOut × List UReq × List String × S :=
  let body : UCreateBody :=
    ⟨props.budget, props.name, props.primaryRegion, props.readRegions,
      "global", true⟩
  let p := step s (.createDb body)
  if p.1.ok = false then
    (.error ("API error creating database: " ++ p.1.statusText),
      [.createDb body], [], p.2)
  else
    let db := p.1.body
    match props.eviction with
    | none => (.ok (buildUpstashAOut db props), [.createDb body], [], p.2)
    | some b =>
      let req : UReq :=
        if b then .enableEviction db.database_id
        else .disableEviction db.database_id
      let q := step p.2 req
      if q.1.ok = false then
        (.error ("API error setting eviction: " ++ q.1.statusText),
          [.createDb body, req], [], q.2)
      else (.ok (buildUpstashAOut db props), [.createDb body, req], [], q.2)

/-- The newer `UpstashRedis` resource handler (project.ts:685-820).
Delete (project.ts:694-702) accesses `this.output.id` without a guard —
a TypeError when no prior output exists — and throws on a non-2xx,
non-404 response (there is no try/catch).  Update (project.ts:707-765)
likewise accesses `this.output.name` unguarded, then runs the rename,
regions, eviction and get stages.  Create is project.ts:767-798. -/
def upstashA {S : Type} (step : S → UReq → UResp × S) (phase : Phase)
    (output : Option UpstashAOut) (props : UpstashAProps) (s : S) :
    HResult UpstashAOut × List UReq × List String × S :=
  match phase with
  | .delete =>
    match output with
    | none =>
      (.error "TypeError: cannot read property id of undefined", [], [], s)
    | some out =>
      let p := step s (.deleteDb out.id)
      if p.1.ok = false ∧ p.1.status ≠ 404 then
        (.error ("Error deleting database: " ++ p.1.statusText),
          [.deleteDb out.id], [], p.2)
      else (.destroyed, [.deleteDb out.id], [], p.2)
  | .update =>
    match output with
    | none =>
      (.error "TypeError: cannot read property name of undefined", [], [], s)
    | some out => upstashAUpdate step out props s
  | .create => upstashACreate step props s

/-- A fixed-response provider for the newer `UpstashRedis` handler: each
request is answered by `env` independently of any state. -/
def fixedStep (env : UReq → UResp) : Unit → UReq → UResp × Unit :=
  fun _ r => (env r, ())

/-- A junk database payload for response bodies the handler never reads
(404/409 answers). -/
def emptyDb : UpstashDb :=
  ⟨"", "", "", "", 0, 0, "", "", "", "", false, "", "", false⟩

/-- Modelled from the spec: the remote Upstash provider, used to state
the idempotent-apply property (spec section 8, "Idempotent apply ...
with no external mutation").  The provider code is external to the
repository; this is a deterministic single-database server that honours
the requested name on create, answers reads with the stored record, and
mutates only what the mutating endpoints address.  Read-region updates
are acknowledged without being recorded because no response payload
field carries them. -/
def freshDb (body : UCreateBody) : UpstashDb :=
  ⟨"db-1", body.name, "Pay as you go", body.region, 6379, 0, "active",
    "server-password", "owner", "db-1.upstash.io", body.tls,
    "server-rest-token", "server-readonly-token", false⟩

/-- Modelled from the spec: one request/response exchange of the
deterministic Upstash server (see `freshDb`). -/
def uServerStep (s : Option UpstashDb) (r : UReq) :
    UResp × Option UpstashDb :=
  match r with
  | .createDb body =>
    match s with
    | none => (⟨200, "OK", freshDb body⟩, some (freshDb body))
    | some d => (⟨409, "Conflict", d⟩, some d)
  | .getDb i =>
    match s with
    | some d =>
      if d.database_id = i then (⟨200, "OK", d⟩, some d)
      else (⟨404, "Not Found", emptyDb⟩, some d)
    | none => (⟨404, "Not Found", emptyDb⟩, none)
  | .rename i n =>
    match s with
    | some d =>
      if d.database_id = i then
        (⟨200, "OK", { d with database_name := n }⟩,
          some { d with database_name := n })
      else (⟨404, "Not Found", emptyDb⟩, some d)
    | none => (⟨404, "Not Found", emptyDb⟩, none)
  | .updateRegions i _ =>
    match s with
    | some d =>
      if d.database_id = i then (⟨200, "OK", d⟩, some d)
      else (⟨404, "Not Found", emptyDb⟩, some d)
    | none => (⟨404, "Not Found", emptyDb⟩, none)
  | .enableEviction i =>
    match s with
    | some d =>
      if d.database_id = i then
        (⟨200, "OK", d⟩, some { d with eviction := true })
      else (⟨404, "Not Found", emptyDb⟩, some d)
    | none => (⟨404, "Not Found", emptyDb⟩, none)
  | .disableEviction i =>
    match s with
    | some d =>
      if d.database_id = i then
        (⟨200, "OK", d⟩, some { d with eviction := false })
      else (⟨404, "Not Found", emptyDb⟩, some d)
    | none => (⟨404, "Not Found", emptyDb⟩, none)
  | .deleteDb i =>
    match s with
    | some d =>
      if d.database_id = i then (⟨200, "OK", emptyDb⟩, none)
      else (⟨404, "Not Found", emptyDb⟩, some d)
    | none => (⟨404, "Not Found", emptyDb⟩, none)

/-- Modelled from the spec: the Orchestrator computes the phase of a
non-teardown apply from the presence of a prior output — `create` if
absent, else `update` (spec sections 3 and 4.1; the orchestration engine
`src/resource.ts` is not in the snapshot). -/
def computePhase {α : Type} (prior : Option α) : Phase :=
  match prior with
  | none => .create
  | some _ => .update

/-- One orchestrated apply of the newer `UpstashRedis` resource against
the modelled server: the phase is computed from the prior output and the
handler is invoked. -/
def applyUpstashA (prior : Option UpstashAOut) (props : UpstashAProps)
    (s : Option UpstashDb) :
    HResult UpstashAOut × List UReq × List String × Option UpstashDb :=
  upstashA uServerStep (computePhase prior) prior props s

/-- Whether a request is the remote create call. -/
def UReq.isCreate : UReq → Bool
  | .createDb _ => true
  | _ => false

/-- Whether a request mutates remote state (everything except the read
of a database). -/
def UReq.isMutating : UReq → Bool
  | .getDb _ => false
  | _ => true

/-- Modelled from the spec: the Scope bookkeeping of the Orchestrator
(spec sections 3 and 4.1; the engine is not in the snapshot).  A scope
records the LogicalIds declared during the run in creation order. -/
structure ScopeRec where
  creationOrder : List String
deriving DecidableEq

/-- Modelled from the spec: declaring a resource appends its LogicalId
to the scope creation order. -/
def declareId (s : ScopeRec) (i : String) : ScopeRec :=
  ⟨s.creationOrder ++ [i]⟩

/-- Modelled from the spec: `destroy(scope)` invokes the delete handlers
in the reverse of the creation order ("Orders the delete set in the
reverse of each id creation order (spec section 4.1); the
returned list is the order of delete-handler invocations. -/
def destroySequence (s : ScopeRec) : List String :=
  s.creationOrder.reverse

theorem stdHandler_op_fail {Props Out Data : Type}
    (sp : StdSpec Props Out Data) (env : StdEnv Data) (phase : Phase)
    (output : Option Out) (props : Props) (hph : phase ≠ .delete)
    (hok : env.opResp.ok = false) :
    (stdHandler sp env phase output props).1
      = .error ("API error: " ++ env.opResp.statusText) := by
  cases phase with
  | delete => exact absurd rfl hph
  | create => simp [stdHandler, hok]
  | update => simp [stdHandler, hok]

theorem stdHandler_delete_success {Props Out Data : Type}
    (sp : StdSpec Props Out Data) (env : StdEnv Data) (out : Out)
    (props : Props) (hid : ¬ sp.outId out = "")
    (hthrow : env.deleteThrow = none)
    (hcond : env.deleteResp.ok = true ∨ env.deleteResp.status = 404) :
    stdHandler sp env .delete (some out) props
      = (.destroyed, [⟨.del, sp.deletePath props out⟩], []) := by
  have hnot : ¬ (env.deleteResp.ok = false ∧ env.deleteResp.status ≠ 404) := by
    rcases hcond with h | h
    · intro hc
      rw [h] at hc
      simp at hc
    · intro hc
      exact hc.2 h
  simp [stdHandler, hid, hthrow, hnot]

theorem stdHandler_delete_fail {Props Out Data : Type}
    (sp : StdSpec Props Out Data) (env : StdEnv Data) (out : Out)
    (props : Props) (hid : ¬ sp.outId out = "")
    (hthrow : env.deleteThrow = none) (hok : env.deleteResp.ok = false)
    (h404 : env.deleteResp.status ≠ 404) :
    stdHandler sp env .delete (some out) props
      = (.destroyed, [⟨.del, sp.deletePath props out⟩],
          ["Error deleting " ++ sp.noun ++ ": "
            ++ env.deleteResp.statusText]) := by
  simp [stdHandler, hid, hthrow, hok, h404]

theorem stdHandler_delete_throw {Props Out Data : Type}
    (sp : StdSpec Props Out Data) (env : StdEnv Data) (out : Out)
    (props : Props) (e : String) (hid : ¬ sp.outId out = "")
    (hthrow : env.deleteThrow = some e) :
    stdHandler sp env .delete (some out) props
      = (.destroyed, [⟨.del, sp.deletePath props out⟩],
          ["Error deleting " ++ sp.noun ++ ": " ++ e]) := by
  simp [stdHandler, hid, hthrow]

theorem stdHandler_delete_no_output {Props Out Data : Type}
    (sp : StdSpec Props Out Data) (env : StdEnv Data) (props : Props) :
    stdHandler sp env .delete none props = (.destroyed, [], []) := by
  simp [stdHandler]

theorem stdHandler_delete_empty_id {Props Out Data : Type}
    (sp : StdSpec Props Out Data) (env : StdEnv Data) (out : Out)
    (props : Props) (hid : sp.outId out = "") :
    stdHandler sp env .delete (some out) props = (.destroyed, [], []) := by
  simp [stdHandler, hid]

theorem stdHandler_update_req {Props Out Data : Type}
    (sp : StdSpec Props Out Data) (env : StdEnv Data) (out : Out)
    (props : Props) (hid : ¬ sp.outId out = "") :
    (stdHandler sp env .update (some out) props).2.1
      = [⟨sp.updMethod, sp.updatePath props out⟩] := by
  by_cases hok : env.opResp.ok = true
  · simp [stdHandler, hid, hok]
  · simp [stdHandler, hid, hok]

theorem stdHandler_create_phase_req {Props Out Data : Type}
    (sp : StdSpec Props Out Data) (env : StdEnv Data) (output : Option Out)
    (props : Props) :
    (stdHandler sp env .create output props).2.1
      = [⟨.post, sp.createPath props⟩] := by
  cases output with
  | none => by_cases hok : env.opResp.ok = true <;> simp [stdHandler, hok]
  | some out => by_cases hok : env.opResp.ok = true <;> simp [stdHandler, hok]

theorem stdHandler_update_none_req {Props Out Data : Type}
    (sp : StdSpec Props Out Data) (env : StdEnv Data) (props : Props) :
    (stdHandler sp env .update none props).2.1
      = [⟨.post, sp.createPath props⟩] := by
  by_cases hok : env.opResp.ok = true <;> simp [stdHandler, hok]

theorem stdHandler_update_noid_req {Props Out Data : Type}
    (sp : StdSpec Props Out Data) (env : StdEnv Data) (out : Out)
    (props : Props) (hid : sp.outId out = "") :
    (stdHandler sp env .update (some out) props).2.1
      = [⟨.post, sp.createPath props⟩] := by
  by_cases hok : env.opResp.ok = true <;> simp [stdHandler, hid, hok]

theorem stdHandler_op_success {Props Out Data : Type}
    (sp : StdSpec Props Out Data) (env : StdEnv Data) (phase : Phase)
    (output : Option Out) (props : Props) (hph : phase ≠ .delete)
    (hok : env.opResp.ok = true) :
    (stdHandler sp env phase output props).1
      = .ok (sp.build props env.opData) := by
  cases phase with
  | delete => exact absurd rfl hph
  | create => simp [stdHandler, hok]
  | update => simp [stdHandler, hok]

theorem resp_ok_200 (st : String) : Resp.ok ⟨200, st⟩ = true := rfl

theorem resp_ok_404 (st : String) : Resp.ok ⟨404, st⟩ = false := rfl

theorem resp_ok_500 (st : String) : Resp.ok ⟨500, st⟩ = false := rfl

theorem uresp_ok_200 (st : String) (b : UpstashDb) :
    UResp.ok ⟨200, st, b⟩ = true := rfl

theorem uresp_ok_404 (st : String) (b : UpstashDb) :
    UResp.ok ⟨404, st, b⟩ = false := rfl

theorem uresp_ok_500 (st : String) (b : UpstashDb) :
    UResp.ok ⟨500, st, b⟩ = false := rfl

/-- Claim C4: for every resource handler invoked with Phase = `delete`,
a 404 response from the provider delete call is treated as success
(already gone): no error is raised or logged for that status, and the
handler returns the destroyed marker exactly as for a 2xx response.
Stated for each of the nine handlers in the snapshot: the first conjunct
of each pair gives the full result on a 404 answer (destroyed marker,
the delete request, no error log — for the newer UpstashRedis, no
thrown error), the second that this result coincides with the one on a
200 answer. -/
theorem c4_delete_404_is_success
    (orgId st st2 : String) (op : Resp)
    (tD : TeamData) (tO : TeamOut) (tP : TeamProps) (ht : tO.id ≠ "")
    (spD : SentryProjectData) (spO : SentryProjectOut)
    (spP : SentryProjectProps) (hsp : spO.id ≠ "")
    (ckD : ClientKeyData) (ckO : ClientKeyOut) (ckP : ClientKeyProps)
    (hck : ckO.id ≠ "")
    (peD : ProjectEnvData) (peO : ProjectEnvOut) (peP : ProjectEnvProps)
    (hpe : peO.id ≠ "")
    (pdD : ProjectDomainData) (pdO : ProjectDomainOut)
    (pdP : ProjectDomainProps) (hpd : pdO.id ≠ "")
    (ubD : UpstashDb) (ubO : UpstashBOut) (ubP : UpstashBProps)
    (hub : ubO.id ≠ "")
    (vD : VercelProjectData) (vE : List RemoteEnv) (vO : ProjectOut)
    (vP : ProjectProps) (hv : vO.id ≠ "")
    (rD : RouteData) (rO : RouteOut) (rP : RouteProps) (hr : rO.id ≠ "")
    (uaO : UpstashAOut) (uaP : UpstashAProps) (udb : UpstashDb) :
    (teamHandler orgId ⟨⟨404, st⟩, none, op, tD⟩ .delete (some tO) tP
        = (.destroyed, [⟨.del, (teamSpec orgId).deletePath tP tO⟩], [])
      ∧ teamHandler orgId ⟨⟨404, st⟩, none, op, tD⟩ .delete (some tO) tP
        = teamHandler orgId ⟨⟨200, st2⟩, none, op, tD⟩ .delete (some tO) tP)
    ∧ (sentryProjectHandler orgId ⟨⟨404, st⟩, none, op, spD⟩ .delete
          (some spO) spP
        = (.destroyed,
            [⟨.del, (sentryProjectSpec orgId).deletePath spP spO⟩], [])
      ∧ sentryProjectHandler orgId ⟨⟨404, st⟩, none, op, spD⟩ .delete
          (some spO) spP
        = sentryProjectHandler orgId ⟨⟨200, st2⟩, none, op, spD⟩ .delete
          (some spO) spP)
    ∧ (clientKeyHandler orgId ⟨⟨404, st⟩, none, op, ckD⟩ .delete
          (some ckO) ckP
        = (.destroyed, [⟨.del, (clientKeySpec orgId).deletePath ckP ckO⟩], [])
      ∧ clientKeyHandler orgId ⟨⟨404, st⟩, none, op, ckD⟩ .delete
          (some ckO) ckP
        = clientKeyHandler orgId ⟨⟨200, st2⟩, none, op, ckD⟩ .delete
          (some ckO) ckP)
    ∧ (projectEnvHandler ⟨⟨404, st⟩, none, op, peD⟩ .delete (some peO) peP
        = (.destroyed, [⟨.del, projectEnvSpec.deletePath peP peO⟩], [])
      ∧ projectEnvHandler ⟨⟨404, st⟩, none, op, peD⟩ .delete (some peO) peP
        = projectEnvHandler ⟨⟨200, st2⟩, none, op, peD⟩ .delete
          (some peO) peP)
    ∧ (projectDomainHandler ⟨⟨404, st⟩, none, op, pdD⟩ .delete
          (some pdO) pdP
        = (.destroyed, [⟨.del, projectDomainSpec.deletePath pdP pdO⟩], [])
      ∧ projectDomainHandler ⟨⟨404, st⟩, none, op, pdD⟩ .delete
          (some pdO) pdP
        = projectDomainHandler ⟨⟨200, st2⟩, none, op, pdD⟩ .delete
          (some pdO) pdP)
    ∧ (upstashBHandler ⟨⟨404, st⟩, none, op, ubD⟩ .delete (some ubO) ubP
        = (.destroyed, [⟨.del, upstashBSpec.deletePath ubP ubO⟩], [])
      ∧ upstashBHandler ⟨⟨404, st⟩, none, op, ubD⟩ .delete (some ubO) ubP
        = upstashBHandler ⟨⟨200, st2⟩, none, op, ubD⟩ .delete (some ubO) ubP)
    ∧ (vercelProject ⟨⟨404, st⟩, none, op, vD, vE⟩ .delete (some vO) vP
        = (.destroyed, [.deleteProject ("/projects/" ++ vO.id)], [])
      ∧ vercelProject ⟨⟨404, st⟩, none, op, vD, vE⟩ .delete (some vO) vP
        = vercelProject ⟨⟨200, st2⟩, none, op, vD, vE⟩ .delete (some vO) vP)
    ∧ (routeHandler ⟨⟨404, st⟩, op, rD⟩ .delete (some rO) rP
        = (.destroyed,
            [⟨.del, "/zones/" ++ rP.zoneId ++ "/workers/routes/"
              ++ rO.id⟩], [])
      ∧ routeHandler ⟨⟨404, st⟩, op, rD⟩ .delete (some rO) rP
        = routeHandler ⟨⟨200, st2⟩, op, rD⟩ .delete (some rO) rP)
    ∧ (upstashA (fixedStep (fun _ => ⟨404, st, udb⟩)) .delete (some uaO)
          uaP ()
        = (.destroyed, [.deleteDb uaO.id], [], ())
      ∧ upstashA (fixedStep (fun _ => ⟨404, st, udb⟩)) .delete (some uaO)
          uaP ()
        = upstashA (fixedStep (fun _ => ⟨200, st2, udb⟩)) .delete (some uaO)
          uaP ()) := by
  refine ⟨⟨?_, ?_⟩, ⟨?_, ?_⟩, ⟨?_, ?_⟩, ⟨?_, ?_⟩, ⟨?_, ?_⟩, ⟨?_, ?_⟩,
    ⟨?_, ?_⟩, ⟨?_, ?_⟩, ⟨?_, ?_⟩⟩
  · exact stdHandler_delete_success (teamSpec orgId) _ tO tP ht rfl
      (Or.inr rfl)
  · exact (stdHandler_delete_success (teamSpec orgId) _ tO tP ht rfl
      (Or.inr rfl)).trans
      (stdHandler_delete_success (teamSpec orgId) _ tO tP ht rfl
        (Or.inl (resp_ok_200 st2))).symm
  · exact stdHandler_delete_success (sentryProjectSpec orgId) _ spO spP hsp
      rfl (Or.inr rfl)
  · exact (stdHandler_delete_success (sentryProjectSpec orgId) _ spO spP hsp
      rfl (Or.inr rfl)).trans
      (stdHandler_delete_success (sentryProjectSpec orgId) _ spO spP hsp rfl
        (Or.inl (resp_ok_200 st2))).symm
  · exact stdHandler_delete_success (clientKeySpec orgId) _ ckO ckP hck rfl
      (Or.inr rfl)
  · exact (stdHandler_delete_success (clientKeySpec orgId) _ ckO ckP hck rfl
      (Or.inr rfl)).trans
      (stdHandler_delete_success (clientKeySpec orgId) _ ckO ckP hck rfl
        (Or.inl (resp_ok_200 st2))).symm
  · exact stdHandler_delete_success projectEnvSpec _ peO peP hpe rfl
      (Or.inr rfl)
  · exact (stdHandler_delete_success projectEnvSpec _ peO peP hpe rfl
      (Or.inr rfl)).trans
      (stdHandler_delete_success projectEnvSpec _ peO peP hpe rfl
        (Or.inl (resp_ok_200 st2))).symm
  · exact stdHandler_delete_success projectDomainSpec _ pdO pdP hpd rfl
      (Or.inr rfl)
  · exact (stdHandler_delete_success projectDomainSpec _ pdO pdP hpd rfl
      (Or.inr rfl)).trans
      (stdHandler_delete_success projectDomainSpec _ pdO pdP hpd rfl
        (Or.inl (resp_ok_200 st2))).symm
  · exact stdHandler_delete_success upstashBSpec _ ubO ubP hub rfl
      (Or.inr rfl)
  · exact (stdHandler_delete_success upstashBSpec _ ubO ubP hub rfl
      (Or.inr rfl)).trans
      (stdHandler_delete_success upstashBSpec _ ubO ubP hub rfl
        (Or.inl (resp_ok_200 st2))).symm
  · simp [vercelProject, hv, resp_ok_404]
  · simp [vercelProject, hv, resp_ok_404, resp_ok_200]
  · simp [routeHandler, hr, resp_ok_404]
  · simp [routeHandler, hr, resp_ok_404, resp_ok_200]
  · simp [upstashA, fixedStep, uresp_ok_404]
  · simp [upstashA, fixedStep, uresp_ok_404, uresp_ok_200]

/-- Concrete instantiation of `c4_delete_404_is_success`. -/
theorem c4_witness :
    ("t1" : String) ≠ ""
    ∧ teamHandler "org" ⟨⟨404, "Not Found"⟩, none, ⟨200, "OK"⟩, ⟨"t1"⟩⟩
        .delete (some ⟨"n", none, "t1"⟩) ⟨"n", none⟩
      = (.destroyed, [⟨.del, (teamSpec "org").deletePath ⟨"n", none⟩
          ⟨"n", none, "t1"⟩⟩], []) := by
  refine ⟨by decide, ?_⟩
  exact (c4_delete_404_is_success "org" "Not Found" "OK" ⟨200, "OK"⟩
    ⟨"t1"⟩ ⟨"n", none, "t1"⟩ ⟨"n", none⟩ (by decide)
    ⟨"p1", ⟨"t", "t", "t"⟩⟩ ⟨"n", none, none, none, "p1", ⟨"t", "t", "t"⟩⟩
      ⟨"n", none, none, none, "t"⟩ (by decide)
    ⟨"k1", 7⟩ ⟨none, none, none, "p", "k1", 7⟩ ⟨none, none, none, "p"⟩
      (by decide)
    ⟨"e1", 0, 0⟩ ⟨"p", "K", "v", "plain", "production", none, "e1", 0, 0⟩
      ⟨"p", "K", "v", "plain", "production", none⟩ (by decide)
    ⟨"d1", 0, 0, true⟩ ⟨"d.com", "p", none, none, none, "d1", 0, 0, true⟩
      ⟨"d.com", "p", none, none, none⟩ (by decide)
    emptyDb ⟨"b1", "n", "t", "global", 1, 0, "active", .plain "x", "u",
      "e", true, .plain "r", .plain "ro", "us-east-1", none, none⟩
      ⟨"n", "us-east-1", none, none⟩ (by decide)
    ⟨"v1", "a", 0, 0, none⟩ [] ⟨"v1", "a", 0, 0, none,
      ⟨"n", none, none, none, none, none, none, none, none, none, none,
        none, none, none, none, none, none, none⟩⟩
      ⟨"n", none, none, none, none, none, none, none, none, none, none,
        none, none, none, none, none, none, none⟩ (by decide)
    ⟨"r1", "pat", "s"⟩ ⟨"r1", "pat", "s", "z"⟩ ⟨"pat", "s", "z"⟩ (by decide)
    ⟨"u1", "n", "t", "global", 1, 0, "active", .secretVal ⟨"x"⟩, "u", "e",
      true, .secretVal ⟨"r"⟩, .secretVal ⟨"ro"⟩, "us-east-1", none, none,
      none⟩
    ⟨"n", "us-east-1", none, none, none⟩ emptyDb).1.1

/-- Claim C2 counterexample: the claim says every resource handler
invoked with Phase = `delete` only logs a remote deletion failure and
still returns the destroyed marker.  The newer `UpstashRedis` handler
(project.ts:694-702) instead throws: on a 500 answer to its delete call
it returns a thrown error, not the destroyed marker, and nothing is
logged. -/
theorem c2_counterexample :
    upstashA (fixedStep (fun _ => ⟨500, "Internal Server Error", emptyDb⟩))
        .delete
        (some ⟨"u1", "n", "t", "global", 1, 0, "active", .secretVal ⟨"x"⟩,
          "u", "e", true, .secretVal ⟨"r"⟩, .secretVal ⟨"ro"⟩, "us-east-1",
          none, none, none⟩)
        ⟨"n", "us-east-1", none, none, none⟩ ()
      = (.error "Error deleting database: Internal Server Error",
          [.deleteDb "u1"], [], ()) := by
  rfl

/-- Claim C2 (amended): for every resource handler invoked with Phase =
`delete` except the newer upstash::Redis (project.ts:685-820) and
cloudflare::Route, a remote deletion failure — a non-2xx, non-404
response or a thrown network error — is only logged and never re-thrown,
and the handler still returns the destroyed marker; the newer
upstash::Redis and cloudflare::Route handlers instead throw on a
non-2xx, non-404 delete response. -/
theorem c2_amended
    (orgId e : String) (dr : Resp) (op : Resp)
    (hok : dr.ok = false) (h404 : dr.status ≠ 404)
    (tD : TeamData) (tO : TeamOut) (tP : TeamProps) (ht : tO.id ≠ "")
    (spD : SentryProjectData) (spO : SentryProjectOut)
    (spP : SentryProjectProps) (hsp : spO.id ≠ "")
    (ckD : ClientKeyData) (ckO : ClientKeyOut) (ckP : ClientKeyProps)
    (hck : ckO.id ≠ "")
    (peD : ProjectEnvData) (peO : ProjectEnvOut) (peP : ProjectEnvProps)
    (hpe : peO.id ≠ "")
    (pdD : ProjectDomainData) (pdO : ProjectDomainOut)
    (pdP : ProjectDomainProps) (hpd : pdO.id ≠ "")
    (ubD : UpstashDb) (ubO : UpstashBOut) (ubP : UpstashBProps)
    (hub : ubO.id ≠ "")
    (vD : VercelProjectData) (vE : List RemoteEnv) (vO : ProjectOut)
    (vP : ProjectProps) (hv : vO.id ≠ "")
    (rD : RouteData) (rO : RouteOut) (rP : RouteProps) (hr : rO.id ≠ "")
    (uaO : UpstashAOut) (uaP : UpstashAProps) (udr : UResp)
    (huok : udr.ok = false) (hu404 : udr.status ≠ 404) :
    (teamHandler orgId ⟨dr, none, op, tD⟩ .delete (some tO) tP
        = (.destroyed, [⟨.del, (teamSpec orgId).deletePath tP tO⟩],
            ["Error deleting team: " ++ dr.statusText])
      ∧ teamHandler orgId ⟨dr, some e, op, tD⟩ .delete (some tO) tP
        = (.destroyed, [⟨.del, (teamSpec orgId).deletePath tP tO⟩],
            ["Error deleting team: " ++ e]))
    ∧ (sentryProjectHandler orgId ⟨dr, none, op, spD⟩ .delete (some spO) spP
        = (.destroyed,
            [⟨.del, (sentryProjectSpec orgId).deletePath spP spO⟩],
            ["Error deleting project: " ++ dr.statusText])
      ∧ sentryProjectHandler orgId ⟨dr, some e, op, spD⟩ .delete
          (some spO) spP
        = (.destroyed,
            [⟨.del, (sentryProjectSpec orgId).deletePath spP spO⟩],
            ["Error deleting project: " ++ e]))
    ∧ (clientKeyHandler orgId ⟨dr, none, op, ckD⟩ .delete (some ckO) ckP
        = (.destroyed, [⟨.del, (clientKeySpec orgId).deletePath ckP ckO⟩],
            ["Error deleting client key: " ++ dr.statusText])
      ∧ clientKeyHandler orgId ⟨dr, some e, op, ckD⟩ .delete (some ckO) ckP
        = (.destroyed, [⟨.del, (clientKeySpec orgId).deletePath ckP ckO⟩],
            ["Error deleting client key: " ++ e]))
    ∧ (projectEnvHandler ⟨dr, none, op, peD⟩ .delete (some peO) peP
        = (.destroyed, [⟨.del, projectEnvSpec.deletePath peP peO⟩],
            ["Error deleting environment variable: " ++ dr.statusText])
      ∧ projectEnvHandler ⟨dr, some e, op, peD⟩ .delete (some peO) peP
        = (.destroyed, [⟨.del, projectEnvSpec.deletePath peP peO⟩],
            ["Error deleting environment variable: " ++ e]))
    ∧ (projectDomainHandler ⟨dr, none, op, pdD⟩ .delete (some pdO) pdP
        = (.destroyed, [⟨.del, projectDomainSpec.deletePath pdP pdO⟩],
            ["Error deleting domain: " ++ dr.statusText])
      ∧ projectDomainHandler ⟨dr, some e, op, pdD⟩ .delete (some pdO) pdP
        = (.destroyed, [⟨.del, projectDomainSpec.deletePath pdP pdO⟩],
            ["Error deleting domain: " ++ e]))
    ∧ (upstashBHandler ⟨dr, none, op, ubD⟩ .delete (some ubO) ubP
        = (.destroyed, [⟨.del, upstashBSpec.deletePath ubP ubO⟩],
            ["Error deleting database: " ++ dr.statusText])
      ∧ upstashBHandler ⟨dr, some e, op, ubD⟩ .delete (some ubO) ubP
        = (.destroyed, [⟨.del, upstashBSpec.deletePath ubP ubO⟩],
            ["Error deleting database: " ++ e]))
    ∧ (vercelProject ⟨dr, none, op, vD, vE⟩ .delete (some vO) vP
        = (.destroyed, [.deleteProject ("/projects/" ++ vO.id)],
            ["Error deleting project: " ++ dr.statusText])
      ∧ vercelProject ⟨dr, some e, op, vD, vE⟩ .delete (some vO) vP
        = (.destroyed, [.deleteProject ("/projects/" ++ vO.id)],
            ["Error deleting project: " ++ e]))
    ∧ routeHandler ⟨dr, op, rD⟩ .delete (some rO) rP
        = (.error ("Error deleting Route " ++ rO.id ++ ": "
            ++ dr.statusText),
          [⟨.del, "/zones/" ++ rP.zoneId ++ "/workers/routes/" ++ rO.id⟩],
          [])
    ∧ upstashA (fixedStep (fun _ => udr)) .delete (some uaO) uaP ()
        = (.error ("Error deleting database: " ++ udr.statusText),
            [.deleteDb uaO.id], [], ()) := by
  refine ⟨⟨?_, ?_⟩, ⟨?_, ?_⟩, ⟨?_, ?_⟩, ⟨?_, ?_⟩, ⟨?_, ?_⟩, ⟨?_, ?_⟩,
    ⟨?_, ?_⟩, ?_, ?_⟩
  · exact stdHandler_delete_fail (teamSpec orgId) _ tO tP ht rfl hok h404
  · exact stdHandler_delete_throw (teamSpec orgId) _ tO tP e ht rfl
  · exact stdHandler_delete_fail (sentryProjectSpec orgId) _ spO spP hsp rfl
      hok h404
  · exact stdHandler_delete_throw (sentryProjectSpec orgId) _ spO spP e hsp
      rfl
  · exact stdHandler_delete_fail (clientKeySpec orgId) _ ckO ckP hck rfl
      hok h404
  · exact stdHandler_delete_throw (clientKeySpec orgId) _ ckO ckP e hck rfl
  · exact stdHandler_delete_fail projectEnvSpec _ peO peP hpe rfl hok h404
  · exact stdHandler_delete_throw projectEnvSpec _ peO peP e hpe rfl
  · exact stdHandler_delete_fail projectDomainSpec _ pdO pdP hpd rfl
      hok h404
  · exact stdHandler_delete_throw projectDomainSpec _ pdO pdP e hpd rfl
  · exact stdHandler_delete_fail upstashBSpec _ ubO ubP hub rfl hok h404
  · exact stdHandler_delete_throw upstashBSpec _ ubO ubP e hub rfl
  · simp [vercelProject, hv, hok, h404]
  · simp [vercelProject, hv]
  · simp [routeHandler, hr, hok, h404]
  · simp [upstashA, fixedStep, huok, hu404]

/-- Concrete instantiation of `c2_amended`. -/
theorem c2_witness :
    Resp.ok ⟨500, "ISE"⟩ = false ∧ (500 : Nat) ≠ 404
    ∧ teamHandler "org" ⟨⟨500, "ISE"⟩, none, ⟨200, "OK"⟩, ⟨"t1"⟩⟩ .delete
        (some ⟨"n", none, "t1"⟩) ⟨"n", none⟩
      = (.destroyed, [⟨.del, (teamSpec "org").deletePath ⟨"n", none⟩
          ⟨"n", none, "t1"⟩⟩], ["Error deleting team: ISE"]) := by
  refine ⟨rfl, by decide, ?_⟩
  exact (c2_amended "org" "boom" ⟨500, "ISE"⟩ ⟨200, "OK"⟩ rfl (by decide)
    ⟨"t1"⟩ ⟨"n", none, "t1"⟩ ⟨"n", none⟩ (by decide)
    ⟨"p1", ⟨"t", "t", "t"⟩⟩ ⟨"n", none, none, none, "p1", ⟨"t", "t", "t"⟩⟩
      ⟨"n", none, none, none, "t"⟩ (by decide)
    ⟨"k1", 7⟩ ⟨none, none, none, "p", "k1", 7⟩ ⟨none, none, none, "p"⟩
      (by decide)
    ⟨"e1", 0, 0⟩ ⟨"p", "K", "v", "plain", "production", none, "e1", 0, 0⟩
      ⟨"p", "K", "v", "plain", "production", none⟩ (by decide)
    ⟨"d1", 0, 0, true⟩ ⟨"d.com", "p", none, none, none, "d1", 0, 0, true⟩
      ⟨"d.com", "p", none, none, none⟩ (by decide)
    emptyDb ⟨"b1", "n", "t", "global", 1, 0, "active", .plain "x", "u",
      "e", true, .plain "r", .plain "ro", "us-east-1", none, none⟩
      ⟨"n", "us-east-1", none, none⟩ (by decide)
    ⟨"v1", "a", 0, 0, none⟩ [] ⟨"v1", "a", 0, 0, none,
      ⟨"n", none, none, none, none, none, none, none, none, none, none,
        none, none, none, none, none, none, none⟩⟩
      ⟨"n", none, none, none, none, none, none, none, none, none, none,
        none, none, none, none, none, none, none⟩ (by decide)
    ⟨"r1", "pat", "s"⟩ ⟨"r1", "pat", "s", "z"⟩ ⟨"pat", "s", "z"⟩ (by decide)
    ⟨"u1", "n", "t", "global", 1, 0, "active", .secretVal ⟨"x"⟩, "u", "e",
      true, .secretVal ⟨"r"⟩, .secretVal ⟨"ro"⟩, "us-east-1", none, none,
      none⟩
    ⟨"n", "us-east-1", none, none, none⟩ ⟨500, "ISE", emptyDb⟩ rfl
    (by decide)).1.1

/-- Claim C9 counterexample: the claim says every resource handler
invoked with Phase = `delete` and no recorded prior Output issues no
remote request, does not crash, and still returns the destroyed marker.
The newer `UpstashRedis` handler (project.ts:695) reads
`this.output.id` without a guard, so with no prior output it crashes
with a TypeError instead of returning the destroyed marker. -/
theorem c9_counterexample :
    upstashA (fixedStep (fun _ => ⟨200, "OK", emptyDb⟩)) .delete none
        ⟨"n", "us-east-1", none, none, none⟩ ()
      = (.error "TypeError: cannot read property id of undefined",
          [], [], ()) := by
  rfl

/-- Claim C9 (amended): for every resource handler except the newer
upstash::Redis (project.ts:685-820), Phase = `delete` with no prior
Output — or a prior Output whose id is empty, hence falsy — issues no
remote delete request, does not crash, and still returns the destroyed
marker; the newer upstash::Redis handler instead crashes with a
TypeError when no prior Output exists. -/
theorem c9_amended
    (orgId : String) (dr : Resp) (dthrow : Option String) (op : Resp)
    (tD : TeamData) (tO : TeamOut) (tP : TeamProps)
    (spD : SentryProjectData) (spO : SentryProjectOut)
    (spP : SentryProjectProps)
    (ckD : ClientKeyData) (ckO : ClientKeyOut) (ckP : ClientKeyProps)
    (peD : ProjectEnvData) (peO : ProjectEnvOut) (peP : ProjectEnvProps)
    (pdD : ProjectDomainData) (pdO : ProjectDomainOut)
    (pdP : ProjectDomainProps)
    (ubD : UpstashDb) (ubO : UpstashBOut) (ubP : UpstashBProps)
    (vD : VercelProjectData) (vE : List RemoteEnv) (vO : ProjectOut)
    (vP : ProjectProps)
    (rD : RouteData) (rO : RouteOut) (rP : RouteProps)
    (uaP : UpstashAProps) (ufn : UReq → UResp) :
    (teamHandler orgId ⟨dr, dthrow, op, tD⟩ .delete none tP
        = (.destroyed, [], [])
      ∧ (tO.id = "" → teamHandler orgId ⟨dr, dthrow, op, tD⟩ .delete
          (some tO) tP = (.destroyed, [], [])))
    ∧ (sentryProjectHandler orgId ⟨dr, dthrow, op, spD⟩ .delete none spP
        = (.destroyed, [], [])
      ∧ (spO.id = "" → sentryProjectHandler orgId ⟨dr, dthrow, op, spD⟩
          .delete (some spO) spP = (.destroyed, [], [])))
    ∧ (clientKeyHandler orgId ⟨dr, dthrow, op, ckD⟩ .delete none ckP
        = (.destroyed, [], [])
      ∧ (ckO.id = "" → clientKeyHandler orgId ⟨dr, dthrow, op, ckD⟩
          .delete (some ckO) ckP = (.destroyed, [], [])))
    ∧ (projectEnvHandler ⟨dr, dthrow, op, peD⟩ .delete none peP
        = (.destroyed, [], [])
      ∧ (peO.id = "" → projectEnvHandler ⟨dr, dthrow, op, peD⟩ .delete
          (some peO) peP = (.destroyed, [], [])))
    ∧ (projectDomainHandler ⟨dr, dthrow, op, pdD⟩ .delete none pdP
        = (.destroyed, [], [])
      ∧ (pdO.id = "" → projectDomainHandler ⟨dr, dthrow, op, pdD⟩ .delete
          (some pdO) pdP = (.destroyed, [], [])))
    ∧ (upstashBHandler ⟨dr, dthrow, op, ubD⟩ .delete none ubP
        = (.destroyed, [], [])
      ∧ (ubO.id = "" → upstashBHandler ⟨dr, dthrow, op, ubD⟩ .delete
          (some ubO) ubP = (.destroyed, [], [])))
    ∧ (vercelProject ⟨dr, dthrow, op, vD, vE⟩ .delete none vP
        = (.destroyed, [], [])
      ∧ (vO.id = "" → vercelProject ⟨dr, dthrow, op, vD, vE⟩ .delete
          (some vO) vP = (.destroyed, [], [])))
    ∧ (routeHandler ⟨dr, op, rD⟩ .delete none rP = (.destroyed, [], [])
      ∧ (rO.id = "" → routeHandler ⟨dr, op, rD⟩ .delete (some rO) rP
          = (.destroyed, [], [])))
    ∧ upstashA (fixedStep ufn) .delete none uaP ()
        = (.error "TypeError: cannot read property id of undefined",
            [], [], ()) := by
  refine ⟨⟨?_, fun h => ?_⟩, ⟨?_, fun h => ?_⟩, ⟨?_, fun h => ?_⟩,
    ⟨?_, fun h => ?_⟩, ⟨?_, fun h => ?_⟩, ⟨?_, fun h => ?_⟩,
    ⟨?_, fun h => ?_⟩, ⟨?_, fun h => ?_⟩, ?_⟩
  · exact stdHandler_delete_no_output (teamSpec orgId) _ tP
  · exact stdHandler_delete_empty_id (teamSpec orgId) _ tO tP h
  · exact stdHandler_delete_no_output (sentryProjectSpec orgId) _ spP
  · exact stdHandler_delete_empty_id (sentryProjectSpec orgId) _ spO spP h
  · exact stdHandler_delete_no_output (clientKeySpec orgId) _ ckP
  · exact stdHandler_delete_empty_id (clientKeySpec orgId) _ ckO ckP h
  · exact stdHandler_delete_no_output projectEnvSpec _ peP
  · exact stdHandler_delete_empty_id projectEnvSpec _ peO peP h
  · exact stdHandler_delete_no_output projectDomainSpec _ pdP
  · exact stdHandler_delete_empty_id projectDomainSpec _ pdO pdP h
  · exact stdHandler_delete_no_output upstashBSpec _ ubP
  · exact stdHandler_delete_empty_id upstashBSpec _ ubO ubP h
  · simp [vercelProject]
  · simp [vercelProject, h]
  · simp [routeHandler]
  · simp [routeHandler, h]
  · rfl

/-- Concrete instantiation of `c9_amended`. -/
theorem c9_witness :
    ("" : String) = ""
    ∧ teamHandler "org" ⟨⟨200, "OK"⟩, none, ⟨200, "OK"⟩, ⟨"t1"⟩⟩ .delete
        none ⟨"n", none⟩ = (.destroyed, [], []) := by
  refine ⟨rfl, ?_⟩
  exact (c9_amended "org" ⟨200, "OK"⟩ none ⟨200, "OK"⟩
    ⟨"t1"⟩ ⟨"n", none, ""⟩ ⟨"n", none⟩
    ⟨"p1", ⟨"t", "t", "t"⟩⟩ ⟨"n", none, none, none, "", ⟨"t", "t", "t"⟩⟩
      ⟨"n", none, none, none, "t"⟩
    ⟨"k1", 7⟩ ⟨none, none, none, "p", "", 7⟩ ⟨none, none, none, "p"⟩
    ⟨"e1", 0, 0⟩ ⟨"p", "K", "v", "plain", "production", none, "", 0, 0⟩
      ⟨"p", "K", "v", "plain", "production", none⟩
    ⟨"d1", 0, 0, true⟩ ⟨"d.com", "p", none, none, none, "", 0, 0, true⟩
      ⟨"d.com", "p", none, none, none⟩
    emptyDb ⟨"", "n", "t", "global", 1, 0, "active", .plain "x", "u",
      "e", true, .plain "r", .plain "ro", "us-east-1", none, none⟩
      ⟨"n", "us-east-1", none, none⟩
    ⟨"v1", "a", 0, 0, none⟩ [] ⟨"", "a", 0, 0, none,
      ⟨"n", none, none, none, none, none, none, none, none, none, none,
        none, none, none, none, none, none, none⟩⟩
      ⟨"n", none, none, none, none, none, none, none, none, none, none,
        none, none, none, none, none, none, none⟩
    ⟨"r1", "pat", "s"⟩ ⟨"", "pat", "s", "z"⟩ ⟨"pat", "s", "z"⟩
    ⟨"n", "us-east-1", none, none, none⟩
    (fun _ => ⟨200, "OK", emptyDb⟩)).1.1

/-- Claim C5 counterexample: the claim says a non-delete handler
invocation never fails merely because Phase is `update` while the prior
Output id is absent (it should fall back to the create request).  The
vercel `Project` handler (project.ts:313-314) instead throws
"Cannot update project without ID" and issues no request at all. -/
theorem c5_counterexample :
    vercelProject
        ⟨⟨200, "OK"⟩, none, ⟨200, "OK"⟩, ⟨"v1", "a", 0, 0, none⟩, []⟩
        .update none
        ⟨"n", none, none, none, none, none, none, none, none, none, none,
          none, none, none, none, none, none, none⟩
      = (.error "Cannot update project without ID", [], []) := by
  rfl

/-- Claim C5 (amended): for sentry Team/Project/ClientKey, vercel
ProjectEnv/ProjectDomain, the older upstash::Redis and cloudflare
Route, a non-delete invocation issues the provider update request
(PUT/PATCH/POST addressed by the remote id of the prior Output) iff Phase is
`update` and a prior Output with a truthy (non-empty) id exists, and in
every other non-delete case issues the provider create request
(POST); the vercel::Project handler instead throws "Cannot update
project without ID" when Phase is `update` and the prior Output id is
absent or empty, and the newer upstash::Redis handler crashes with a
TypeError there. -/
theorem c5_amended
    (orgId : String) (env : Resp) (dthrow : Option String) (dr : Resp)
    (tD : TeamData) (tO : TeamOut) (tP : TeamProps) (ht : tO.id ≠ "")
    (tO' : TeamOut) (ht' : tO'.id = "")
    (spD : SentryProjectData) (spO : SentryProjectOut)
    (spP : SentryProjectProps) (hsp : spO.id ≠ "")
    (ckD : ClientKeyData) (ckO : ClientKeyOut) (ckP : ClientKeyProps)
    (hck : ckO.id ≠ "")
    (peD : ProjectEnvData) (peO : ProjectEnvOut) (peP : ProjectEnvProps)
    (hpe : peO.id ≠ "")
    (pdD : ProjectDomainData) (pdO : ProjectDomainOut)
    (pdP : ProjectDomainProps) (hpd : pdO.id ≠ "")
    (ubD : UpstashDb) (ubO : UpstashBOut) (ubP : UpstashBProps)
    (hub : ubO.id ≠ "")
    (rD : RouteData) (rO : RouteOut) (rP : RouteProps) (hr : rO.id ≠ "")
    (vD : VercelProjectData) (vE : List RemoteEnv) (vO : ProjectOut)
    (vP : ProjectProps) (hv : vO.id = "")
    (uaP : UpstashAProps) (ufn : UReq → UResp) :
    ((teamHandler orgId ⟨dr, dthrow, env, tD⟩ .update (some tO) tP).2.1
        = [⟨(teamSpec orgId).updMethod, (teamSpec orgId).updatePath tP tO⟩]
      ∧ (teamHandler orgId ⟨dr, dthrow, env, tD⟩ .create (some tO) tP).2.1
        = [⟨.post, (teamSpec orgId).createPath tP⟩]
      ∧ (teamHandler orgId ⟨dr, dthrow, env, tD⟩ .update none tP).2.1
        = [⟨.post, (teamSpec orgId).createPath tP⟩]
      ∧ (teamHandler orgId ⟨dr, dthrow, env, tD⟩ .update (some tO') tP).2.1
        = [⟨.post, (teamSpec orgId).createPath tP⟩])
    ∧ ((sentryProjectHandler orgId ⟨dr, dthrow, env, spD⟩ .update
          (some spO) spP).2.1
        = [⟨(sentryProjectSpec orgId).updMethod,
            (sentryProjectSpec orgId).updatePath spP spO⟩]
      ∧ (sentryProjectHandler orgId ⟨dr, dthrow, env, spD⟩ .create
          (some spO) spP).2.1
        = [⟨.post, (sentryProjectSpec orgId).createPath spP⟩]
      ∧ (sentryProjectHandler orgId ⟨dr, dthrow, env, spD⟩ .update
          none spP).2.1
        = [⟨.post, (sentryProjectSpec orgId).createPath spP⟩])
    ∧ ((clientKeyHandler orgId ⟨dr, dthrow, env, ckD⟩ .update
          (some ckO) ckP).2.1
        = [⟨(clientKeySpec orgId).updMethod,
            (clientKeySpec orgId).updatePath ckP ckO⟩]
      ∧ (clientKeyHandler orgId ⟨dr, dthrow, env, ckD⟩ .create
          (some ckO) ckP).2.1
        = [⟨.post, (clientKeySpec orgId).createPath ckP⟩]
      ∧ (clientKeyHandler orgId ⟨dr, dthrow, env, ckD⟩ .update
          none ckP).2.1
        = [⟨.post, (clientKeySpec orgId).createPath ckP⟩])
    ∧ ((projectEnvHandler ⟨dr, dthrow, env, peD⟩ .update
          (some peO) peP).2.1
        = [⟨projectEnvSpec.updMethod, projectEnvSpec.updatePath peP peO⟩]
      ∧ (projectEnvHandler ⟨dr, dthrow, env, peD⟩ .create
          (some peO) peP).2.1
        = [⟨.post, projectEnvSpec.createPath peP⟩]
      ∧ (projectEnvHandler ⟨dr, dthrow, env, peD⟩ .update none peP).2.1
        = [⟨.post, projectEnvSpec.createPath peP⟩])
    ∧ ((projectDomainHandler ⟨dr, dthrow, env, pdD⟩ .update
          (some pdO) pdP).2.1
        = [⟨projectDomainSpec.updMethod,
            projectDomainSpec.updatePath pdP pdO⟩]
      ∧ (projectDomainHandler ⟨dr, dthrow, env, pdD⟩ .create
          (some pdO) pdP).2.1
        = [⟨.post, projectDomainSpec.createPath pdP⟩]
      ∧ (projectDomainHandler ⟨dr, dthrow, env, pdD⟩ .update none pdP).2.1
        = [⟨.post, projectDomainSpec.createPath pdP⟩])
    ∧ ((upstashBHandler ⟨dr, dthrow, env, ubD⟩ .update (some ubO) ubP).2.1
        = [⟨upstashBSpec.updMethod, upstashBSpec.updatePath ubP ubO⟩]
      ∧ (upstashBHandler ⟨dr, dthrow, env, ubD⟩ .create (some ubO) ubP).2.1
        = [⟨.post, upstashBSpec.createPath ubP⟩]
      ∧ (upstashBHandler ⟨dr, dthrow, env, ubD⟩ .update none ubP).2.1
        = [⟨.post, upstashBSpec.createPath ubP⟩])
    ∧ ((routeHandler ⟨dr, env, rD⟩ .update (some rO) rP).2.1
        = [⟨.put, "/zones/" ++ rP.zoneId ++ "/workers/routes/" ++ rO.id⟩]
      ∧ (routeHandler ⟨dr, env, rD⟩ .create (some rO) rP).2.1
        = [⟨.post, "/zones/" ++ rP.zoneId ++ "/workers/routes"⟩]
      ∧ (routeHandler ⟨dr, env, rD⟩ .update none rP).2.1
        = [⟨.post, "/zones/" ++ rP.zoneId ++ "/workers/routes"⟩])
    ∧ (vercelProject ⟨dr, dthrow, env, vD, vE⟩ .update none vP
        = (.error "Cannot update project without ID", [], [])
      ∧ vercelProject ⟨dr, dthrow, env, vD, vE⟩ .update (some vO) vP
        = (.error "Cannot update project without ID", [], []))
    ∧ upstashA (fixedStep ufn) .update none uaP ()
        = (.error "TypeError: cannot read property name of undefined",
            [], [], ()) := by
  refine ⟨⟨?_, ?_, ?_, ?_⟩, ⟨?_, ?_, ?_⟩, ⟨?_, ?_, ?_⟩, ⟨?_, ?_, ?_⟩,
    ⟨?_, ?_, ?_⟩, ⟨?_, ?_, ?_⟩, ⟨?_, ?_, ?_⟩, ⟨?_, ?_⟩, ?_⟩
  · exact stdHandler_update_req (teamSpec orgId) _ tO tP ht
  · exact stdHandler_create_phase_req (teamSpec orgId) _ (some tO) tP
  · exact stdHandler_update_none_req (teamSpec orgId) _ tP
  · exact stdHandler_update_noid_req (teamSpec orgId) _ tO' tP ht'
  · exact stdHandler_update_req (sentryProjectSpec orgId) _ spO spP hsp
  · exact stdHandler_create_phase_req (sentryProjectSpec orgId) _
      (some spO) spP
  · exact stdHandler_update_none_req (sentryProjectSpec orgId) _ spP
  · exact stdHandler_update_req (clientKeySpec orgId) _ ckO ckP hck
  · exact stdHandler_create_phase_req (clientKeySpec orgId) _ (some ckO) ckP
  · exact stdHandler_update_none_req (clientKeySpec orgId) _ ckP
  · exact stdHandler_update_req projectEnvSpec _ peO peP hpe
  · exact stdHandler_create_phase_req projectEnvSpec _ (some peO) peP
  · exact stdHandler_update_none_req projectEnvSpec _ peP
  · exact stdHandler_update_req projectDomainSpec _ pdO pdP hpd
  · exact stdHandler_create_phase_req projectDomainSpec _ (some pdO) pdP
  · exact stdHandler_update_none_req projectDomainSpec _ pdP
  · exact stdHandler_update_req upstashBSpec _ ubO ubP hub
  · exact stdHandler_create_phase_req upstashBSpec _ (some ubO) ubP
  · exact stdHandler_update_none_req upstashBSpec _ ubP
  · by_cases hok : env.ok = true <;> simp [routeHandler, hr, hok]
  · by_cases hok : env.ok = true <;> simp [routeHandler, hok]
  · by_cases hok : env.ok = true <;> simp [routeHandler, hok]
  · simp [vercelProject]
  · simp [vercelProject, hv]
  · rfl

/-- Concrete instantiation of `c5_amended`. -/
theorem c5_witness :
    ("t1" : String) ≠ ""
    ∧ (teamHandler "org" ⟨⟨200, "OK"⟩, none, ⟨200, "OK"⟩, ⟨"t1"⟩⟩ .update
        (some ⟨"n", none, "t1"⟩) ⟨"n", none⟩).2.1
      = [⟨(teamSpec "org").updMethod,
          (teamSpec "org").updatePath ⟨"n", none⟩ ⟨"n", none, "t1"⟩⟩] := by
  refine ⟨by decide, ?_⟩
  exact (c5_amended "org" ⟨200, "OK"⟩ none ⟨200, "OK"⟩
    ⟨"t1"⟩ ⟨"n", none, "t1"⟩ ⟨"n", none⟩ (by decide)
    ⟨"n", none, ""⟩ rfl
    ⟨"p1", ⟨"t", "t", "t"⟩⟩ ⟨"n", none, none, none, "p1", ⟨"t", "t", "t"⟩⟩
      ⟨"n", none, none, none, "t"⟩ (by decide)
    ⟨"k1", 7⟩ ⟨none, none, none, "p", "k1", 7⟩ ⟨none, none, none, "p"⟩
      (by decide)
    ⟨"e1", 0, 0⟩ ⟨"p", "K", "v", "plain", "production", none, "e1", 0, 0⟩
      ⟨"p", "K", "v", "plain", "production", none⟩ (by decide)
    ⟨"d1", 0, 0, true⟩ ⟨"d.com", "p", none, none, none, "d1", 0, 0, true⟩
      ⟨"d.com", "p", none, none, none⟩ (by decide)
    emptyDb ⟨"b1", "n", "t", "global", 1, 0, "active", .plain "x", "u",
      "e", true, .plain "r", .plain "ro", "us-east-1", none, none⟩
      ⟨"n", "us-east-1", none, none⟩ (by decide)
    ⟨"r1", "pat", "s"⟩ ⟨"r1", "pat", "s", "z"⟩ ⟨"pat", "s", "z"⟩ (by decide)
    ⟨"v1", "a", 0, 0, none⟩ [] ⟨"", "a", 0, 0, none,
      ⟨"n", none, none, none, none, none, none, none, none, none, none,
        none, none, none, none, none, none, none⟩⟩
      ⟨"n", none, none, none, none, none, none, none, none, none, none,
        none, none, none, none, none, none, none⟩ rfl
    ⟨"n", "us-east-1", none, none, none⟩
    (fun _ => ⟨200, "OK", emptyDb⟩)).1.1

/-- Claim C1 counterexample: the claim says that during create/update a
non-2xx response from any provider call of the handler makes the
handler throw, and that the handler never returns a constructed Output
after a non-2xx response.  In the newer `UpstashRedis` update branch the
eviction toggle failing with a 500 is only warned about
(project.ts:750-755) and the handler still returns a constructed
Output. -/
theorem c1_counterexample :
    upstashA
        (fixedStep (fun r =>
          match r with
          | .enableEviction _ => ⟨500, "Internal Server Error", emptyDb⟩
          | _ => ⟨200, "OK", ⟨"u1", "n", "Pay as you go", "global", 6379, 0,
              "active", "pw", "u", "e", true, "rt", "rot", false⟩⟩))
        .update
        (some ⟨"u1", "n", "Pay as you go", "global", 6379, 0, "active",
          .secretVal ⟨"pw"⟩, "u", "e", true, .secretVal ⟨"rt"⟩,
          .secretVal ⟨"rot"⟩, "us-east-1", none, none, some false⟩)
        ⟨"n", "us-east-1", none, none, some true⟩ ()
      = (.ok ⟨"u1", "n", "Pay as you go", "global", 6379, 0, "active",
            .secretVal ⟨"pw"⟩, "u", "e", true, .secretVal ⟨"rt"⟩,
            .secretVal ⟨"rot"⟩, "us-east-1", none, none, some true⟩,
          [.enableEviction "u1", .getDb "u1"],
          ["API error updating eviction: Internal Server Error. (Eviction may already be set)"],
          ()) := by
  rfl

/-- Claim C1 (amended): during create/update, the sentry
Team/Project/ClientKey, vercel ProjectEnv/ProjectDomain, older
upstash::Redis and cloudflare Route handlers throw a classified error on
a non-2xx response of their create/update call and never build an Output
from it, and the newer upstash::Redis throws on a non-2xx response of
its create call; with two exceptions: a non-2xx response to the newer
upstash::Redis eviction-toggle call during update is only warned about
and the handler still returns a constructed Output, and the
vercel::Project handler performs no status check of its own, returning
an Output built from the parsed response regardless of the response
status. -/
theorem c1_amended
    (orgId : String) (ph : Phase) (hph : ph ≠ .delete) (dr : Resp)
    (dthrow : Option String) (op : Resp) (hok : op.ok = false)
    (tD : TeamData) (tOut : Option TeamOut) (tP : TeamProps)
    (spD : SentryProjectData) (spOut : Option SentryProjectOut)
    (spP : SentryProjectProps)
    (ckD : ClientKeyData) (ckOut : Option ClientKeyOut)
    (ckP : ClientKeyProps)
    (peD : ProjectEnvData) (peOut : Option ProjectEnvOut)
    (peP : ProjectEnvProps)
    (pdD : ProjectDomainData) (pdOut : Option ProjectDomainOut)
    (pdP : ProjectDomainProps)
    (ubD : UpstashDb) (ubOut : Option UpstashBOut) (ubP : UpstashBProps)
    (rD : RouteData) (rOut : Option RouteOut) (rP : RouteProps)
    (uaP1 : UpstashAProps) (ufn1 : UReq → UResp)
    (hcr : (ufn1 (.createDb ⟨uaP1.budget, uaP1.name, uaP1.primaryRegion,
        uaP1.readRegions, "global", true⟩)).ok = false)
    (uaO : UpstashAOut) (uaP2 : UpstashAProps) (ufn2 : UReq → UResp)
    (hname : uaP2.name = uaO.name)
    (hreg : uaP2.readRegions = uaO.readRegions)
    (hev : uaP2.eviction = some true) (hev2 : uaO.eviction ≠ some true)
    (hevresp : (ufn2 (.enableEviction uaO.id)).ok = false)
    (hget : (ufn2 (.getDb uaO.id)).ok = true)
    (vD : VercelProjectData) (vE : List RemoteEnv) (vO : ProjectOut)
    (vP : ProjectProps) (hv : vO.id ≠ "") :
    ((teamHandler orgId ⟨dr, dthrow, op, tD⟩ ph tOut tP).1
        = .error ("API error: " ++ op.statusText))
    ∧ ((sentryProjectHandler orgId ⟨dr, dthrow, op, spD⟩ ph spOut spP).1
        = .error ("API error: " ++ op.statusText))
    ∧ ((clientKeyHandler orgId ⟨dr, dthrow, op, ckD⟩ ph ckOut ckP).1
        = .error ("API error: " ++ op.statusText))
    ∧ ((projectEnvHandler ⟨dr, dthrow, op, peD⟩ ph peOut peP).1
        = .error ("API error: " ++ op.statusText))
    ∧ ((projectDomainHandler ⟨dr, dthrow, op, pdD⟩ ph pdOut pdP).1
        = .error ("API error: " ++ op.statusText))
    ∧ ((upstashBHandler ⟨dr, dthrow, op, ubD⟩ ph ubOut ubP).1
        = .error ("API error: " ++ op.statusText))
    ∧ ((routeHandler ⟨dr, op, rD⟩ ph rOut rP).1
        = .error ("Cloudflare API error for Route " ++ rP.pattern ++ ": "
            ++ op.statusText))
    ∧ ((upstashA (fixedStep ufn1) .create none uaP1 ()).1
        = .error ("API error creating database: "
            ++ (ufn1 (.createDb ⟨uaP1.budget, uaP1.name, uaP1.primaryRegion,
                uaP1.readRegions, "global", true⟩)).statusText))
    ∧ (upstashA (fixedStep ufn2) .update (some uaO) uaP2 ()
        = (.ok (buildUpstashAOut (ufn2 (.getDb uaO.id)).body uaP2),
            [.enableEviction uaO.id, .getDb uaO.id],
            ["API error updating eviction: "
              ++ (ufn2 (.enableEviction uaO.id)).statusText
              ++ ". (Eviction may already be set)"], ()))
    ∧ ((vercelProject ⟨dr, dthrow, op, vD, vE⟩ .update (some vO) vP).1
        = .ok (buildProjectOut vD vP)) := by
  have hev2' : ¬ uaP2.eviction = uaO.eviction := by
    rw [hev]
    exact fun hc => hev2 hc.symm
  have hev3 : ¬ some true = uaO.eviction := fun hc => hev2 hc.symm
  refine ⟨?_, ?_, ?_, ?_, ?_, ?_, ?_, ?_, ?_, ?_⟩
  · exact stdHandler_op_fail (teamSpec orgId) _ ph tOut tP hph hok
  · exact stdHandler_op_fail (sentryProjectSpec orgId) _ ph spOut spP
      hph hok
  · exact stdHandler_op_fail (clientKeySpec orgId) _ ph ckOut ckP hph hok
  · exact stdHandler_op_fail projectEnvSpec _ ph peOut peP hph hok
  · exact stdHandler_op_fail projectDomainSpec _ ph pdOut pdP hph hok
  · exact stdHandler_op_fail upstashBSpec _ ph ubOut ubP hph hok
  · cases ph with
    | delete => exact absurd rfl hph
    | create => cases rOut with
      | none => simp [routeHandler, hok]
      | some r => simp [routeHandler, hok]
    | update => cases rOut with
      | none => simp [routeHandler, hok]
      | some r => simp [routeHandler, hok]
  · simp [upstashA, upstashACreate, fixedStep, hcr]
  · simp [upstashA, upstashAUpdate, upstashARegions, upstashAEviction,
      upstashAGet, fixedStep, hname, hreg, hev, hev2', hev3, hevresp, hget]
  · simp [vercelProject, hv]

/-- Concrete instantiation of `c1_amended`. -/
theorem c1_witness :
    Resp.ok ⟨500, "ISE"⟩ = false
    ∧ (teamHandler "org" ⟨⟨200, "OK"⟩, none, ⟨500, "ISE"⟩, ⟨"t1"⟩⟩ .create
        none ⟨"n", none⟩).1 = .error "API error: ISE" := by
  refine ⟨rfl, ?_⟩
  exact (c1_amended "org" .create (by decide) ⟨200, "OK"⟩ none ⟨500, "ISE"⟩
    rfl
    ⟨"t1"⟩ none ⟨"n", none⟩
    ⟨"p1", ⟨"t", "t", "t"⟩⟩ none ⟨"n", none, none, none, "t"⟩
    ⟨"k1", 7⟩ none ⟨none, none, none, "p"⟩
    ⟨"e1", 0, 0⟩ none ⟨"p", "K", "v", "plain", "production", none⟩
    ⟨"d1", 0, 0, true⟩ none ⟨"d.com", "p", none, none, none⟩
    emptyDb none ⟨"n", "us-east-1", none, none⟩
    ⟨"r1", "pat", "s"⟩ none ⟨"pat", "s", "z"⟩
    ⟨"n", "us-east-1", none, none, none⟩ (fun _ => ⟨500, "ISE", emptyDb⟩)
    rfl
    ⟨"u1", "n", "t", "global", 1, 0, "active", .secretVal ⟨"x"⟩, "u", "e",
      true, .secretVal ⟨"r"⟩, .secretVal ⟨"ro"⟩, "us-east-1", none, none,
      some false⟩
    ⟨"n", "us-east-1", none, none, some true⟩
    (fun r =>
      match r with
      | .enableEviction _ => ⟨500, "ISE", emptyDb⟩
      | _ => ⟨200, "OK", emptyDb⟩)
    rfl rfl rfl (by decide) rfl rfl
    ⟨"v1", "a", 0, 0, none⟩ [] ⟨"v1", "a", 0, 0, none,
      ⟨"n", none, none, none, none, none, none, none, none, none, none,
        none, none, none, none, none, none, none⟩⟩
      ⟨"n", none, none, none, none, none, none, none, none, none, none,
        none, none, none, none, none, none, none⟩ (by decide)).1

/-- Claim C3 counterexample: the claim says every sensitive
provider-returned value (database password, REST token, read-only REST
token) placed into a persisted Output is wrapped as a Secret so that
serialization never contains the plaintext.  The older `UpstashRedis`
handler (project.ts:1136-1153) places all three into the Output as plain
strings, and serializing such a field yields the plaintext itself. -/
theorem c3_counterexample :
    (upstashBHandler ⟨⟨200, "OK"⟩, none, ⟨200, "OK"⟩,
        ⟨"u1", "n", "paid", "global", 6379, 0, "active", "hunter2", "u",
          "e", true, "tok-rest", "tok-ro", false⟩⟩ .create none
        ⟨"n", "us-east-1", none, none⟩).1
      = .ok ⟨"u1", "n", "paid", "global", 6379, 0, "active",
          .plain "hunter2", "u", "e", true, .plain "tok-rest",
          .plain "tok-ro", "us-east-1", none, none⟩
    ∧ serializeField (FieldVal.plain "hunter2") = "hunter2" := by
  exact ⟨rfl, rfl⟩

/-- Claim C3 (amended): in the newer upstash::Redis handler
(project.ts:800-818) every sensitive provider-returned value — database
password, REST token, read-only REST token — placed into the Output is
wrapped as a Secret, and the serialized form of such a wrapped field is
a fixed redaction placeholder independent of the plaintext; the older
upstash::Redis variant (project.ts:1136-1153) instead stores all three
as plain strings, which serialize to the plaintext itself. -/
theorem c3_amended
    (db : UpstashDb) (props : UpstashAProps) (ufn : UReq → UResp)
    (hok : (ufn (.createDb ⟨props.budget, props.name, props.primaryRegion,
        props.readRegions, "global", true⟩)).ok = true)
    (hev : props.eviction = none) (s s' : String) :
    ((buildUpstashAOut db props).password
        = .secretVal (alchemySecret db.password)
      ∧ (buildUpstashAOut db props).restToken
        = .secretVal (alchemySecret db.rest_token)
      ∧ (buildUpstashAOut db props).readOnlyRestToken
        = .secretVal (alchemySecret db.read_only_rest_token))
    ∧ (serializeField (buildUpstashAOut db props).password
        = "SECRET-REDACTED"
      ∧ serializeField (buildUpstashAOut db props).restToken
        = "SECRET-REDACTED"
      ∧ serializeField (buildUpstashAOut db props).readOnlyRestToken
        = "SECRET-REDACTED")
    ∧ serializeField (.secretVal ⟨s⟩) = serializeField (.secretVal ⟨s'⟩)
    ∧ (upstashA (fixedStep ufn) .create none props ()).1
        = .ok (buildUpstashAOut
            (ufn (.createDb ⟨props.budget, props.name, props.primaryRegion,
              props.readRegions, "global", true⟩)).body props) := by
  refine ⟨⟨rfl, rfl, rfl⟩, ⟨rfl, rfl, rfl⟩, rfl, ?_⟩
  simp [upstashA, upstashACreate, fixedStep, hok, hev]

/-- Concrete instantiation of `c3_amended`. -/
theorem c3_witness :
    UResp.ok ⟨200, "OK", emptyDb⟩ = true
    ∧ (buildUpstashAOut
          ⟨"u1", "n", "paid", "global", 6379, 0, "active", "hunter2", "u",
            "e", true, "tok-rest", "tok-ro", false⟩
          ⟨"n", "us-east-1", none, none, none⟩).password
        = .secretVal (alchemySecret "hunter2") := by
  refine ⟨rfl, ?_⟩
  exact (c3_amended
    ⟨"u1", "n", "paid", "global", 6379, 0, "active", "hunter2", "u", "e",
      true, "tok-rest", "tok-ro", false⟩
    ⟨"n", "us-east-1", none, none, none⟩
    (fun _ => ⟨200, "OK", emptyDb⟩) rfl rfl "a" "b").1.1

/-- Claim C6: on every update-phase apply of a vercel::Project, the
immutable fields `name` and `environmentVariables` are omitted from the
PATCH request payload (the payload is the `rest` destructuring, whose
keys do not include them), yet the returned Output still contains the
declared `name` and every other declared Props field with its declared
value (the Output carries the declared props unchanged). -/
theorem c6_update_omits_immutable_fields
    (dr : Resp) (dthrow : Option String) (op : Resp)
    (vD : VercelProjectData) (vE : List RemoteEnv) (vO : ProjectOut)
    (vP : ProjectProps) (hv : vO.id ≠ "") :
    (vercelProject ⟨dr, dthrow, op, vD, vE⟩ .update (some vO) vP).2.1.head?
        = some (.patchProject ("/projects/" ++ vO.id) (projectRest vP))
    ∧ "name" ∉ projectPatchKeys
    ∧ "environmentVariables" ∉ projectPatchKeys
    ∧ (vercelProject ⟨dr, dthrow, op, vD, vE⟩ .update (some vO) vP).1
        = .ok (buildProjectOut vD vP)
    ∧ (buildProjectOut vD vP).props = vP
    ∧ (buildProjectOut vD vP).props.name = vP.name := by
  refine ⟨?_, by decide, by decide, ?_, rfl, rfl⟩
  · simp [vercelProject, hv]
  · simp [vercelProject, hv]

/-- Concrete instantiation of `c6_update_omits_immutable_fields`. -/
theorem c6_witness :
    ("v1" : String) ≠ ""
    ∧ (vercelProject ⟨⟨200, "OK"⟩, none, ⟨200, "OK"⟩,
          ⟨"v1", "a", 0, 0, none⟩, []⟩ .update
          (some ⟨"v1", "a", 0, 0, none,
            ⟨"n", none, none, none, none, none, none, none, none, none,
              none, none, none, none, none, none, none, none⟩⟩)
          ⟨"n2", none, none, some "make", none, none, none, none, none,
            none, none, none, none, none, none, none, none, none⟩).2.1.head?
      = some (.patchProject "/projects/v1"
          (projectRest ⟨"n2", none, none, some "make", none, none, none,
            none, none, none, none, none, none, none, none, none, none,
            none⟩)) := by
  refine ⟨by decide, ?_⟩
  exact (c6_update_omits_immutable_fields ⟨200, "OK"⟩ none ⟨200, "OK"⟩
    ⟨"v1", "a", 0, 0, none⟩ []
    ⟨"v1", "a", 0, 0, none,
      ⟨"n", none, none, none, none, none, none, none, none, none, none,
        none, none, none, none, none, none, none⟩⟩
    ⟨"n2", none, none, some "make", none, none, none, none, none, none,
      none, none, none, none, none, none, none, none⟩ (by decide)).1

/-- Claim C10: when an update-phase apply of a vercel::Project declares
environmentVariables, the handler first PATCHes the project, then
upserts every declared variable in one POST, then lists the remote
variables and deletes exactly those whose key does not appear among the
declared keys — in that order — and every issued env-delete request is
addressed to a remote variable whose key is not declared, while every
remote variable with an undeclared key is deleted. -/
theorem c10_env_reconciliation
    (dr : Resp) (dthrow : Option String) (op : Resp)
    (vD : VercelProjectData) (vE : List RemoteEnv) (vO : ProjectOut)
    (vP : ProjectProps) (evs : List ProjEnvVar) (hv : vO.id ≠ "")
    (henv : vP.environmentVariables = some evs) :
    (vercelProject ⟨dr, dthrow, op, vD, vE⟩ .update (some vO) vP).2.1
      = [.patchProject ("/projects/" ++ vO.id) (projectRest vP),
         .postEnvUpsert ("/projects/" ++ vO.id ++ "/env?upsert=true")
           (evs.map unwrapForUpsert),
         .getEnvs ("/projects/" ++ vO.id ++ "/env")]
        ++ (vE.filter
              (fun pe => !(evs.any (fun ev => ev.key == pe.key)))).map
            (fun pe =>
              VReq.deleteEnv ("/projects/" ++ vO.id ++ "/env/" ++ pe.id))
    ∧ (∀ pe ∈ vE, evs.any (fun ev => ev.key == pe.key) = false →
        VReq.deleteEnv ("/projects/" ++ vO.id ++ "/env/" ++ pe.id)
          ∈ (vercelProject ⟨dr, dthrow, op, vD, vE⟩ .update
              (some vO) vP).2.1)
    ∧ (∀ p, VReq.deleteEnv p
          ∈ (vercelProject ⟨dr, dthrow, op, vD, vE⟩ .update
              (some vO) vP).2.1 →
        ∃ pe, pe ∈ vE ∧ evs.any (fun ev => ev.key == pe.key) = false
          ∧ p = "/projects/" ++ vO.id ++ "/env/" ++ pe.id) := by
  have htr : (vercelProject ⟨dr, dthrow, op, vD, vE⟩ .update
      (some vO) vP).2.1
      = [.patchProject ("/projects/" ++ vO.id) (projectRest vP),
         .postEnvUpsert ("/projects/" ++ vO.id ++ "/env?upsert=true")
           (evs.map unwrapForUpsert),
         .getEnvs ("/projects/" ++ vO.id ++ "/env")]
        ++ (vE.filter
              (fun pe => !(evs.any (fun ev => ev.key == pe.key)))).map
            (fun pe =>
              VReq.deleteEnv ("/projects/" ++ vO.id ++ "/env/" ++ pe.id)) := by
    simp [vercelProject, hv, henv]
  refine ⟨htr, ?_, ?_⟩
  · intro pe hpe hnot
    rw [htr]
    refine List.mem_append.mpr (Or.inr ?_)
    exact List.mem_map.mpr
      ⟨pe, List.mem_filter.mpr ⟨hpe, by simp [hnot]⟩, rfl⟩
  · intro p hp
    rw [htr] at hp
    rcases List.mem_append.mp hp with h | h
    · simp at h
    · obtain ⟨pe, hpe, hEq⟩ := List.mem_map.mp h
      obtain ⟨hmem, hcond⟩ := List.mem_filter.mp hpe
      injection hEq with hEq'
      exact ⟨pe, hmem, by simpa using hcond, hEq'.symm⟩

/-- Concrete instantiation of `c10_env_reconciliation`. -/
theorem c10_witness :
    ("v1" : String) ≠ ""
    ∧ (some [(⟨"KEEP", ["production"], none, "plain", .plain "v"⟩
          : ProjEnvVar)]
        = some [(⟨"KEEP", ["production"], none, "plain", .plain "v"⟩
          : ProjEnvVar)])
    ∧ VReq.deleteEnv "/projects/v1/env/e2"
        ∈ (vercelProject ⟨⟨200, "OK"⟩, none, ⟨200, "OK"⟩,
            ⟨"v1", "a", 0, 0, none⟩,
            [⟨"e1", "KEEP"⟩, ⟨"e2", "DROP"⟩]⟩ .update
            (some ⟨"v1", "a", 0, 0, none,
              ⟨"n", none, none, none, none, none,
                some [⟨"KEEP", ["production"], none, "plain", .plain "v"⟩],
                none, none, none, none, none, none, none, none, none,
                none, none⟩⟩)
            ⟨"n", none, none, none, none, none,
              some [⟨"KEEP", ["production"], none, "plain", .plain "v"⟩],
              none, none, none, none, none, none, none, none, none, none,
              none⟩).2.1 := by
  refine ⟨by decide, rfl, ?_⟩
  refine (c10_env_reconciliation ⟨200, "OK"⟩ none ⟨200, "OK"⟩
    ⟨"v1", "a", 0, 0, none⟩ [⟨"e1", "KEEP"⟩, ⟨"e2", "DROP"⟩]
    ⟨"v1", "a", 0, 0, none,
      ⟨"n", none, none, none, none, none,
        some [⟨"KEEP", ["production"], none, "plain", .plain "v"⟩],
        none, none, none, none, none, none, none, none, none, none,
        none⟩⟩
    ⟨"n", none, none, none, none, none,
      some [⟨"KEEP", ["production"], none, "plain", .plain "v"⟩],
      none, none, none, none, none, none, none, none, none, none, none⟩
    [⟨"KEEP", ["production"], none, "plain", .plain "v"⟩]
    (by decide) rfl).2.1 ⟨"e2", "DROP"⟩ (by decide) (by decide)

/-- Claim C8: for every scope holding resources A and B where B was
declared after A, destroy(scope) invokes the delete handler of B strictly
before that of A: the teardown sequence for a scope extended by A then B
is B first, then A, then the reverse of the previously declared ids,
and the position of B is strictly smaller than that of A. -/
theorem c8_reverse_order_teardown (s : ScopeRec) (a b : String)
    (hab : a ≠ b) :
    destroySequence (declareId (declareId s a) b)
        = b :: a :: destroySequence s
    ∧ (destroySequence (declareId (declareId s a) b)).indexOf b
        < (destroySequence (declareId (declareId s a) b)).indexOf a := by
  have h1 : destroySequence (declareId (declareId s a) b)
      = b :: a :: destroySequence s := by
    simp [destroySequence, declareId]
  refine ⟨h1, ?_⟩
  rw [h1]
  rw [List.indexOf_cons_self]
  rw [List.indexOf_cons_ne _ (Ne.symm hab)]
  exact Nat.succ_pos _

/-- Concrete instantiation of `c8_reverse_order_teardown`. -/
theorem c8_witness :
    ("proj" : String) ≠ "key"
    ∧ destroySequence (declareId (declareId ⟨[]⟩ "proj") "key")
      = ["key", "proj"] := by
  refine ⟨by decide, ?_⟩
  exact (c8_reverse_order_teardown ⟨[]⟩ "proj" "key" (by decide)).1

/-- The Output produced by a first (create-phase) apply of the newer
`UpstashRedis` against the modelled server starting with no database:
the create response carries `freshDb` of the requested body. -/
def firstApplyOut (props : UpstashAProps) : UpstashAOut :=
  buildUpstashAOut
    (freshDb ⟨props.budget, props.name, props.primaryRegion,
      props.readRegions, "global", true⟩)
    props

/-- The server state after the first apply of the newer `UpstashRedis`
starting from an empty server. -/
def serverAfterFirst (props : UpstashAProps) : Option UpstashDb :=
  (applyUpstashA none props none).2.2.2

/-- Claim C7: for the upstash::Redis handler (newer variant) in update
phase, if the declared name, readRegions and eviction setting all equal
the prior Output values, the handler issues no mutating provider
request — its request trace is exactly the one read of the database —
and applying twice in sequence with unchanged Props against the
modelled provider (starting from no remote database, with no external
mutation) yields the same Output both times, with the second trace
being only the read and exactly one remote create call across both
applies. -/
theorem c7_idempotent_update
    (out : UpstashAOut) (uprops : UpstashAProps) (ufn : UReq → UResp)
    (hname : uprops.name = out.name)
    (hreg : uprops.readRegions = out.readRegions)
    (hev : uprops.eviction = out.eviction)
    (props : UpstashAProps) :
    (upstashA (fixedStep ufn) .update (some out) uprops ()).2.1
        = [.getDb out.id]
    ∧ (applyUpstashA none props none).1 = .ok (firstApplyOut props)
    ∧ (applyUpstashA (some (firstApplyOut props)) props
        (serverAfterFirst props)).1 = .ok (firstApplyOut props)
    ∧ (applyUpstashA (some (firstApplyOut props)) props
        (serverAfterFirst props)).2.1 = [.getDb "db-1"]
    ∧ ((applyUpstashA none props none).2.1
        ++ (applyUpstashA (some (firstApplyOut props)) props
            (serverAfterFirst props)).2.1).countP UReq.isCreate = 1 := by
  constructor
  · by_cases hg : (ufn (.getDb out.id)).ok = true <;>
      simp [upstashA, upstashAUpdate, upstashARegions, upstashAEviction,
        upstashAGet, fixedStep, hname, hreg, hev, hg]
  · cases hpe : props.eviction with
    | none =>
      refine ⟨?_, ?_, ?_, ?_⟩ <;>
        simp [applyUpstashA, computePhase, upstashA, upstashACreate,
          upstashAUpdate, upstashARegions, upstashAEviction, upstashAGet,
          uServerStep, freshDb, buildUpstashAOut, firstApplyOut,
          serverAfterFirst, hpe, uresp_ok_200, UReq.isCreate,
          List.countP_cons, List.countP_nil]
    | some b =>
      cases b <;>
        (refine ⟨?_, ?_, ?_, ?_⟩ <;>
          simp [applyUpstashA, computePhase, upstashA, upstashACreate,
            upstashAUpdate, upstashARegions, upstashAEviction, upstashAGet,
            uServerStep, freshDb, buildUpstashAOut, firstApplyOut,
            serverAfterFirst, hpe, uresp_ok_200, UReq.isCreate,
            List.countP_cons, List.countP_nil])

/-- Concrete instantiation of `c7_idempotent_update`. -/
theorem c7_witness :
    ("r" : String) = "r"
    ∧ (upstashA
        (fixedStep (fun _ => ⟨200, "OK", emptyDb⟩)) .update
        (some ⟨"u1", "r", "t", "global", 1, 0, "active", .secretVal ⟨"x"⟩,
          "u", "e", true, .secretVal ⟨"rt"⟩, .secretVal ⟨"ro"⟩,
          "us-east-1", none, none, some true⟩)
        ⟨"r", "us-east-1", none, none, some true⟩ ()).2.1
      = [.getDb "u1"] := by
  refine ⟨rfl, ?_⟩
  exact (c7_idempotent_update
    ⟨"u1", "r", "t", "global", 1, 0, "active", .secretVal ⟨"x"⟩, "u", "e",
      true, .secretVal ⟨"rt"⟩, .secretVal ⟨"ro"⟩, "us-east-1", none, none,
      some true⟩
    ⟨"r", "us-east-1", none, none, some true⟩
    (fun _ => ⟨200, "OK", emptyDb⟩) rfl rfl rfl
    ⟨"r", "us-east-1", none, none, some true⟩).1

end Alchemy
